import Mathlib

/-!
Verification development for the analytics-engine orchestration core.

The Python sources (state.py, graph.py, main.py, data_manager.py and the
agents package) are shallowly embedded below.  External collaborators are
modelled at their interfaces:
  * the generation capability (get_llm().invoke) is an oracle
    `PyEnv.llm` that may fail with an exception or return text;
  * json.loads is an oracle `PyEnv.jloads` returning a JSON value or a
    decode error;
  * the file system backing pandas.read_csv is `PyEnv.fs`;
  * the DuckDB engine is modelled for the aggregate-query fragment the
    spec exercises (single-column GROUP BY with one SUM), other query
    text yields an engine error;
  * wall-clock time is `PyEnv.elapsedMs`.
Python exceptions are explicit `Except PyExc` results; a stage letting an
exception escape is a `.error` value.  Machine floats are modelled as
rationals.
-/

/-- Python exceptions that the embedded code can raise or catch. -/
inductive PyExc where
  | llmError (msg : String)
  | jsonDecodeError (msg : String)
  | validationError (msg : String)
  | attrError (msg : String)
  | typeError (msg : String)
  | unboundLocalError (name : String)
  | fileNotFoundError (msg : String)
  | recursionError (msg : String)
deriving DecidableEq, Repr

/-- Python str(e) for an exception: the stored message (for
UnboundLocalError, the interpolated runtime message). -/
def pyStrExc : PyExc → String
  | .llmError m => m
  | .jsonDecodeError m => m
  | .validationError m => m
  | .attrError m => m
  | .typeError m => m
  | .unboundLocalError n =>
      "local variable " ++ n ++ " referenced before assignment"
  | .fileNotFoundError m => m
  | .recursionError m => m

/-- Fuelled Euclid gcd; the fuel (second argument + 1 at call sites)
bounds the iteration count, keeping the definition structurally
recursive and kernel-reducible. -/
def gcdF : Nat → Nat → Nat → Nat
  | 0, a, _ => a
  | fuel + 1, a, b => if b = 0 then a else gcdF fuel b (a % b)

/-- Machine floats of the Python sources, modelled as normalized
rationals.  (The library rational type is avoided because its
arithmetic does not reduce inside the kernel.)  A zero denominator is
the junk value of division by zero, which no modelled computation
feeds back into control flow. -/
structure PyRat where
  num : Int
  den : Nat
deriving DecidableEq, Repr

/-- Build a normalized rational from a signed fraction. -/
def PyRat.mk2 (n d : Int) : PyRat :=
  if d = 0 then ⟨0, 0⟩
  else
    let n' := if d < 0 then -n else n
    let dn := d.natAbs
    let g := gcdF (dn + 1) n'.natAbs dn
    ⟨n' / (g : Int), dn / g⟩

instance : OfNat PyRat n := ⟨⟨(n : Int), 1⟩⟩

instance : NatCast PyRat := ⟨fun n => ⟨(n : Int), 1⟩⟩

instance : IntCast PyRat := ⟨fun n => ⟨n, 1⟩⟩

instance : Zero PyRat := ⟨⟨0, 1⟩⟩

instance : Add PyRat :=
  ⟨fun a b => PyRat.mk2 (a.num * (b.den : Int) + b.num * (a.den : Int))
    ((a.den : Int) * (b.den : Int))⟩

instance : Mul PyRat :=
  ⟨fun a b => PyRat.mk2 (a.num * b.num) ((a.den : Int) * (b.den : Int))⟩

instance : Div PyRat :=
  ⟨fun a b => PyRat.mk2 (a.num * (b.den : Int)) ((a.den : Int) * b.num)⟩

instance : LT PyRat := ⟨fun a b => a.num * (b.den : Int) < b.num * (a.den : Int)⟩

instance : LE PyRat := ⟨fun a b => a.num * (b.den : Int) ≤ b.num * (a.den : Int)⟩

instance (a b : PyRat) : Decidable (a < b) := by
  unfold LT.lt instLTPyRat
  exact inferInstance

instance (a b : PyRat) : Decidable (a ≤ b) := by
  unfold LE.le instLEPyRat
  exact inferInstance

/-- Mathematical floor, used to model format rounding. -/
def PyRat.floor (q : PyRat) : Int := Int.fdiv q.num (q.den : Int)

/-- JSON values as produced by json.loads. -/
inductive JValue where
  | null
  | bool (b : Bool)
  | num (q : PyRat)
  | str (s : String)
  | arr (elems : List JValue)
  | obj (fields : List (String × JValue))
deriving Repr

mutual

/-- Structural equality test on JSON values. -/
def JValue.beq : JValue → JValue → Bool
  | .null, .null => true
  | .bool a, .bool b => a == b
  | .num a, .num b => a == b
  | .str a, .str b => a == b
  | .arr a, .arr b => JValue.beqList a b
  | .obj a, .obj b => JValue.beqFields a b
  | _, _ => false

def JValue.beqList : List JValue → List JValue → Bool
  | [], [] => true
  | a :: as, b :: bs => JValue.beq a b && JValue.beqList as bs
  | _, _ => false

def JValue.beqFields : List (String × JValue) → List (String × JValue) → Bool
  | [], [] => true
  | (ka, va) :: as, (kb, vb) :: bs =>
      ka == kb && JValue.beq va vb && JValue.beqFields as bs
  | _, _ => false

end

instance : BEq JValue := ⟨JValue.beq⟩

/-- `startsList needle hay` decides whether `needle` is an initial
segment of `hay`. -/
def startsList : List Char → List Char → Bool
  | [], _ => true
  | _ :: _, [] => false
  | a :: as, b :: bs => a == b && startsList as bs

/-- `subList needle hay` decides whether `needle` occurs contiguously in
`hay` (the Python `in` test on strings). -/
def subList (needle : List Char) : List Char → Bool
  | [] => needle.isEmpty
  | c :: rest => startsList needle (c :: rest) || subList needle rest

/-- Python `needle in hay` on strings. -/
def strContains (hay needle : String) : Bool :=
  subList needle.toList hay.toList

/-- Python str.lower() (character-wise; the catalog and question
strings in scope are ASCII). -/
def pyToLower (s : String) : String :=
  String.mk (s.toList.map Char.toLower)

/-- s.startswith(pre) (kernel-reducible model of String.startsWith). -/
def strStarts (s pre : String) : Bool := startsList pre.toList s.toList

/-- s.endswith(suf). -/
def strEnds (s suf : String) : Bool :=
  startsList suf.toList.reverse s.toList.reverse

/-- Python str.strip(). -/
def pyStrip (s : String) : String :=
  String.mk (((s.toList.dropWhile Char.isWhitespace).reverse.dropWhile
    Char.isWhitespace).reverse)

/-- Python str.rstrip() on whitespace. -/
def pyRStrip (s : String) : String :=
  String.mk ((s.toList.reverse.dropWhile Char.isWhitespace).reverse)

/-- Drop the first n characters. -/
def strDrop (s : String) (n : Nat) : String := String.mk (s.toList.drop n)

/-- Drop the last n characters. -/
def strDropRight (s : String) (n : Nat) : String :=
  String.mk (s.toList.take (s.toList.length - n))

/-- Keep the first n characters. -/
def strTake (s : String) (n : Nat) : String := String.mk (s.toList.take n)

/-- Drop leading whitespace. -/
def strDropWs (s : String) : String :=
  String.mk (s.toList.dropWhile Char.isWhitespace)

/-- Fuelled splitter on a non-empty separator (the fuel is the input
length, which bounds the scan). -/
def splitAuxF (sep : List Char) : Nat → List Char → List Char →
    List (List Char)
  | _, [], acc => [acc.reverse]
  | 0, cs, acc => [acc.reverse ++ cs]
  | fuel + 1, c :: rest, acc =>
      if startsList sep (c :: rest) then
        acc.reverse :: splitAuxF sep fuel ((c :: rest).drop sep.length) []
      else splitAuxF sep fuel rest (c :: acc)

/-- Python str.split(sep) for a non-empty separator. -/
def strSplitOn (s sep : String) : List String :=
  if sep = "" then [s]
  else (splitAuxF sep.toList s.toList.length s.toList []).map String.mk

/-- int(s) for optional-sign decimal literals. -/
def strToInt? (s : String) : Option Int :=
  let digitsVal := fun (ds : List Char) =>
    ds.foldl (fun acc c => acc * 10 + ((c.toNat - 48 : Nat) : Int)) (0 : Int)
  match s.toList with
  | [] => none
  | '-' :: ds =>
      if !ds.isEmpty && ds.all Char.isDigit then some (-(digitsVal ds))
      else none
  | ds => if !ds.isEmpty && ds.all Char.isDigit then some (digitsVal ds)
          else none

/-- Python `sep.join(xs)`. -/
def joinSep (sep : String) : List String → String
  | [] => ""
  | [x] => x
  | x :: xs => x ++ sep ++ joinSep sep xs

/-- Association-list update with dict semantics: replace an existing key
in place, otherwise append at the end (CPython insertion order). -/
def dictUpsert {α : Type} (l : List (String × α)) (k : String) (v : α) :
    List (String × α) :=
  if l.any (fun p => p.1 == k) then
    l.map (fun p => if p.1 == k then (k, v) else p)
  else
    l ++ [(k, v)]

/-- Repr of a rational in prompt and log strings.  Python float repr is
not modelled digit-for-digit; no stage logic reads these strings back. -/
def pyNum (q : PyRat) : String :=
  if q.den = 1 then toString q.num
  else toString q.num ++ "/" ++ toString q.den

/-- Python f-string rendering of an optional int (None prints "None"). -/
def pyOptInt : Option Int → String
  | none => "None"
  | some n => toString n

/-- Python f-string rendering of an optional string. -/
def pyOptStr : Option String → String
  | none => "None"
  | some s => s

/-- Two-decimal formatting used in log lines (f"{x:.2f}"); modelled with
half-up rounding, binary-float artifacts are not modelled. -/
def formatRat2 (q : PyRat) : String :=
  let cents : Int := (q * 100 + 1 / 2).floor
  let whole := cents / 100
  let frac := (cents % 100).toNat
  let fracStr := if frac < 10 then "0" ++ toString frac else toString frac
  toString whole ++ "." ++ fracStr

/-- Percent formatting used in log lines (f"{x:.0%}"). -/
def formatPct0 (q : PyRat) : String :=
  toString ((q * 100 + 1 / 2).floor) ++ "%"

/-- float(x) on a JSON value (Python float() builtin); numeric-string
coercion is modelled for integer literals only, which no claim relies
on. -/
def pyFloat : JValue → Except PyExc PyRat
  | .num q => .ok q
  | .bool b => .ok (if b then 1 else 0)
  | .str s =>
      match strToInt? s with
      | some n => .ok (n : PyRat)
      | none => .error (.typeError "could not convert string to float")
  | _ => .error (.typeError "float() argument must be a string or a real number")

/-- dict.get(key, default) on a parsed JSON value; attribute error when
the value is not an object (Python AttributeError on .get). -/
def jGet (j : JValue) (key : String) (dflt : JValue) : Except PyExc JValue :=
  match j with
  | .obj fields => .ok ((fields.lookup key).getD dflt)
  | _ => .error (.attrError "object has no attribute get")

/-- pydantic str field validation. -/
def jStr : JValue → Except PyExc String
  | .str s => .ok s
  | _ => .error (.validationError "Input should be a valid string")

/-- pydantic Optional[str] field validation. -/
def jOptStr : JValue → Except PyExc (Option String)
  | .null => .ok none
  | .str s => .ok (some s)
  | _ => .error (.validationError "Input should be a valid string")

/-- pydantic List[str] field validation. -/
def jStrList : JValue → Except PyExc (List String)
  | .arr xs =>
      xs.foldr
        (fun x acc =>
          match x, acc with
          | .str s, .ok l => .ok (s :: l)
          | _, .ok _ => .error (.validationError "Input should be a valid string")
          | _, .error e => .error e)
        (.ok [])
  | _ => .error (.validationError "Input should be a valid list")

/-- pydantic List[Any] field validation. -/
def jList : JValue → Except PyExc (List JValue)
  | .arr xs => .ok xs
  | _ => .error (.validationError "Input should be a valid list")

/-- pydantic dict field validation. -/
def jDict : JValue → Except PyExc (List (String × JValue))
  | .obj fields => .ok fields
  | _ => .error (.validationError "Input should be a valid dictionary")

/-- pydantic Field(ge=0, le=1) validation on a float field. -/
def validProb (q : PyRat) : Except PyExc PyRat :=
  if 0 ≤ q ∧ q ≤ 1 then .ok q
  else .error (.validationError "Input should be in the interval [0, 1]")

/-- A tabular cell as loaded by pandas.read_csv. -/
inductive Cell where
  | null
  | num (q : PyRat)
  | str (s : String)
deriving DecidableEq, Repr

/-- An in-memory table (pandas DataFrame): column names plus rows. -/
structure DataFrame where
  cols : List String
  rows : List (List Cell)
deriving DecidableEq, Repr

/-- Index of a column in a frame. -/
def DataFrame.colIdx (df : DataFrame) (c : String) : Option Nat :=
  df.cols.indexOf? c

/-- The cells of one column. -/
def DataFrame.colCells (df : DataFrame) (c : String) : List Cell :=
  match df.colIdx c with
  | none => []
  | some i => df.rows.map (fun r => r.getD i .null)

/-- pandas numeric dtype test: every cell of the column is a number or a
missing value. -/
def DataFrame.isNumericCol (df : DataFrame) (c : String) : Bool :=
  (df.colCells c).all (fun x =>
    match x with
    | .num _ => true
    | .null => true
    | .str _ => false)

/-- Distinct values of a list, keeping first appearances. -/
def distinctKeep {α : Type} [BEq α] : List α → List α
  | [] => []
  | x :: xs =>
      let rest := distinctKeep xs
      if rest.contains x then x :: rest.filter (fun y => !(y == x)) else x :: rest

/-- Distinct non-null values of a column in first-appearance order. -/
def DataFrame.distinctNonNull (df : DataFrame) (c : String) : List Cell :=
  ((df.colCells c).filter (fun x => !(x == Cell.null))).foldl
    (fun acc x => if acc.contains x then acc else acc ++ [x]) []

/-- Series.nunique(dropna=True). -/
def DataFrame.nunique (df : DataFrame) (c : String) : Nat :=
  (df.distinctNonNull c).length

/-! ## state.py: pydantic models and the shared state -/

/-- state.py Intent. -/
structure Intent where
  task_type : String
  entities : List String := []
  metrics : List String := []
  time_window : String := "90d"
  segments : List String := []
  confidence : PyRat := 4 / 5
  is_generic : Bool := false
deriving DecidableEq, Repr

/-- state.py DataSource. -/
structure DataSource where
  name : String
  table_name : String
  columns : List String
  primary_keys : List String
  quality_score : PyRat := 9 / 10
  last_updated : String
  record_count : Option Int := none
deriving DecidableEq, Repr

/-- state.py DataSources. -/
structure DataSources where
  sources : List DataSource := []
  total_sources : Nat := 0
  coverage_score : PyRat := 0
  warnings : List String := []
deriving DecidableEq, Repr

/-- state.py AnalysisStep; depends_on values are opaque ids from the
model. -/
structure AnalysisStep where
  step_number : Int
  description : String
  required_tables : List String
  sql_template : Option String := none
  depends_on : List JValue := []
deriving Repr

/-- state.py AnalysisPlan. -/
structure AnalysisPlan where
  steps : List AnalysisStep := []
  total_steps : Nat := 0
  estimated_runtime_seconds : PyRat := 0
  estimated_rows_returned : Nat := 0
  warnings : List String := []
  data_quality_issues : List String := []
deriving Repr

/-- state.py QueryExecutionRecord. -/
structure QueryExecutionRecord where
  step_number : Int
  description : String
  sql : String
  executed : Bool := false
  success : Option Bool := none
  rows_returned : Option Int := none
  error_message : Option String := none
deriving DecidableEq, Repr

/-- A value of the reserved result_data["query_results"] map:
{sql, data, row_count, columns}. -/
structure QueryResultEntry where
  sql : String
  data : List (List Cell)
  row_count : Nat
  columns : List String
deriving DecidableEq, Repr

/-- One row of the pandas groupby aggregation (count, mean, sum). -/
structure GroupRow where
  key : Cell
  count : Nat
  mean : PyRat
  sum : PyRat
deriving DecidableEq, Repr

/-- The "groupby" entry of a per-source analysis dict. -/
structure GroupbyResult where
  dimension : String
  metric : String
  data : List GroupRow
deriving DecidableEq, Repr

/-- Per-source analysis dict built by _analyze_dataframe.  The summary
models pandas describe at interface granularity: one record per column
with its non-null count; the remaining statistics are external-library
output that no stage logic reads back. -/
structure SourceAnalysis where
  summary : Option (List (String × Nat)) := none
  summary_error : Option String := none
  sample : Option (List (List Cell)) := none
  sample_error : Option String := none
  groupby : Option GroupbyResult := none
  groupby_error : Option String := none
deriving DecidableEq, Repr

/-- The execution stage result_data dict: the reserved "query_results"
key plus one entry per analyzed dataset.  A dataset whose logical name
is literally "query_results" would shadow the reserved key in Python;
that collision is not modelled. -/
structure ResultData where
  query_results : Option (List (String × QueryResultEntry)) := none
  per_source : List (String × SourceAnalysis) := []
deriving DecidableEq, Repr

/-- Python truthiness of the result_data dict. -/
def ResultData.isTruthy (rd : ResultData) : Bool :=
  rd.query_results.isSome || !rd.per_source.isEmpty

/-- state.py ExecutionResults. -/
structure ExecutionResults where
  queries_executed : List QueryExecutionRecord
  row_count : Nat := 0
  execution_time_total_ms : Nat := 0
  success : Bool := true
  errors : List String := []
  result_data : Option ResultData := none
deriving DecidableEq, Repr

/-- state.py Insight. -/
structure Insight where
  finding : String
  metric : String
  magnitude : String
  confidence : PyRat := 4 / 5
  supporting_evidence : Option String := none
  business_impact : String := "medium"
deriving DecidableEq, Repr

/-- state.py Anomaly. -/
structure Anomaly where
  description : String
  severity : String := "medium"
  affected_metric : String
  affected_segment : Option String := none
  magnitude : String
  confidence : PyRat := 3 / 4
deriving DecidableEq, Repr

/-- state.py Visualization. -/
structure Visualization where
  chart_id : String
  chart_type : String
  title : String
  data_fields : List (String × JValue) := []
  description : String := ""
  appropriateness_score : PyRat := 17 / 20
deriving Repr

/-- state.py ConfidenceMetrics. -/
structure ConfidenceMetrics where
  overall_confidence : PyRat := 3 / 4
  data_freshness : String := "recent"
  sample_size_adequate : Bool := true
  completeness_score : PyRat := 9 / 10
  caveats : List String := []
  data_quality_issues : List String := []
  recommendations : List String := []
deriving DecidableEq, Repr

/-- state.py AnalyticsState (the LangGraph TypedDict).  pending_queries
is not declared in the TypedDict but is written and read as a plain dict
key by the execution agents; it is carried here with an empty default. -/
structure AnalyticsState where
  question : String
  user_id : String
  interpreted_intent : Option Intent := none
  available_data_sources : Option DataSources := none
  analysis_plan : Option AnalysisPlan := none
  plan_approved : Bool := false
  approval_notes : Option String := none
  pending_queries : List QueryExecutionRecord := []
  execution_results : Option ExecutionResults := none
  execution_errors : List String := []
  insights : List Insight := []
  anomalies : List Anomaly := []
  visualizations : List Visualization := []
  confidence_assessment : Option ConfidenceMetrics := none
  direct_answer : Option String := none
  conversation_history : List String := []
  execution_log : List String := []
  status : String := "created"
  error_state : Option String := none
deriving Repr

/-- state.py create_initial_state. -/
def create_initial_state (question : String) (user_id : String := "anonymous") :
    AnalyticsState :=
  { question := question
    user_id := user_id
    interpreted_intent := none
    available_data_sources := none
    analysis_plan := none
    plan_approved := false
    approval_notes := none
    pending_queries := []
    execution_results := none
    execution_errors := []
    insights := []
    anomalies := []
    visualizations := []
    confidence_assessment := none
    direct_answer := none
    conversation_history := []
    execution_log := []
    status := "created"
    error_state := none }

/-- state.py log_state_transition: append one log line and move the
status to the new stage name. -/
def log_state_transition (s : AnalyticsState) (new_status msg : String) :
    AnalyticsState :=
  { s with
    execution_log := s.execution_log ++ ["[" ++ new_status ++ "] " ++ msg]
    status := new_status }

/-! ## External collaborators: catalog entries and the environment -/

/-- A dataset schema as persisted in catalog.json by register_dataset;
description and per-column sample values are carried by the catalog but
(as shown below) never reach the data advisor. -/
structure DatasetSchema where
  columns : List String := []
  primary_keys : List String := []
  quality_score : Option PyRat := none
  rows : Option Int := none
  description : Option String := none
  sample_values : List String := []
deriving Repr

/-- One catalog entry as returned by data_manager.list_datasets. -/
structure DatasetEntry where
  name : String
  filename : Option String := none
  kind : String := "file"
  location : Option String := none
  schema : DatasetSchema := {}
deriving Repr

/-- The ambient Python environment of one pipeline run: the generation
capability, json.loads, the dataset catalog, the file system behind
pandas.read_csv, datetime.now().isoformat(), and the measured wall-clock
duration of the execution stage. -/
structure PyEnv where
  llm : List (String × String) → Except PyExc String
  jloads : String → Except PyExc JValue
  catalog : List DatasetEntry
  fs : String → Option DataFrame
  now : String
  elapsedMs : Nat

/-- execution_agent.py HAS_DUCKDB: the embedded engine imports
successfully in the deployed environment. -/
def HAS_DUCKDB : Bool := true

/-- config.py MIN_DATA_POINTS default. -/
def MIN_DATA_POINTS : Nat := 10

/-! ## config.py system prompts (braces written as escapes) -/

/-- config.py SYSTEM_PROMPT_INTERPRETER. -/
def SYSTEM_PROMPT_INTERPRETER : String :=
  "You are an expert data analyst interpreter. Your job is to understand \n" ++
  "user questions about business data and translate them into structured analysis requirements.\n\n" ++
  "When analyzing a question:\n" ++
  "1. Extract the main intent (trend analysis, root cause analysis, comparison, forecast, etc.)\n" ++
  "2. Identify key business entities (products, regions, customers, time periods)\n" ++
  "3. List the metrics involved (revenue, cost, customers, conversion rate, etc.)\n" ++
  "4. Determine required time windows and segments\n" ++
  "5. Assess complexity and required data sources\n\n" ++
  "Format your response as JSON with keys: intent, entities, metrics, time_window, segments, complexity."

/-- config.py SYSTEM_PROMPT_PLANNER. -/
def SYSTEM_PROMPT_PLANNER : String :=
  "You are a master data analyst. Your job is to design efficient, multi-step \n" ++
  "analysis plans that answer user questions.\n\n" ++
  "For each analysis:\n" ++
  "1. Break down into logical steps (1-5 typical)\n" ++
  "2. For each step, specify what SQL query/calculation is needed\n" ++
  "3. Identify dependencies between steps\n" ++
  "4. Estimate execution time and data volume\n" ++
  "5. Flag any data quality concerns\n" ++
  "6. Suggest validation checks\n\n" ++
  "Format your response as JSON with keys: steps, dependencies, estimated_time, data_volume_estimate, warnings."

/-- config.py SYSTEM_PROMPT_SQL. -/
def SYSTEM_PROMPT_SQL : String :=
  "\nYou are an expert SQL analyst.\n\n" ++
  "You will be given:\n" ++
  "- A natural language question from a business user.\n" ++
  "- A list of AVAILABLE TABLES with their columns.\n" ++
  "- An analysis step description (what we are trying to compute).\n\n" ++
  "Your job:\n" ++
  "1. Understand the question and analysis step.\n" ++
  "2. Use ONLY the tables and columns provided.\n" ++
  "3. Produce a SINGLE valid SQL query (ANSI SQL).\n" ++
  "4. Return ONLY the SQL, no explanation or comments.\n\n" ++
  "STRICT RULES:\n" ++
  "- Do NOT invent tables or columns.\n" ++
  "- Prefer simple joins and clear WHERE filters.\n" ++
  "- When possible, use a single table with GROUP BY and WHERE.\n" ++
  "- If ambiguous, choose a reasonable interpretation.\n"

/-- config.py SYSTEM_PROMPT_INSIGHT. -/
def SYSTEM_PROMPT_INSIGHT : String :=
  "You are an expert business analyst. Your job is to extract meaningful \n" ++
  "insights from analysis results.\n\n" ++
  "For each result set:\n" ++
  "1. Identify key findings (top performers, bottom performers, trends)\n" ++
  "2. Detect anomalies (unexpected values, sudden changes)\n" ++
  "3. Find correlations and relationships\n" ++
  "4. Quantify change magnitude (% change, absolute change)\n" ++
  "5. Assess business impact and urgency\n" ++
  "6. Rate confidence in findings (0-1)\n\n" ++
  "Format as JSON: \x7binsights: [\x7bfinding: \"...\", metric: \"...\", magnitude: \"...\", confidence: 0.85\x7d], \n" ++
  "anomalies: [...], business_impact: \"high/medium/low\"\x7d"

/-- config.py SYSTEM_PROMPT_VISUALIZER. -/
def SYSTEM_PROMPT_VISUALIZER : String :=
  "You are a data visualization expert. Your job is to choose the best \n" ++
  "chart types and create visualization configurations.\n\n" ++
  "For each data set:\n" ++
  "1. Recommend chart type (line, bar, scatter, histogram, heatmap, etc.)\n" ++
  "2. Specify dimensions (x-axis, y-axis, color, size if applicable)\n" ++
  "3. Add relevant formatting (titles, labels, legends)\n" ++
  "4. Suggest drill-down/interaction capabilities\n" ++
  "5. Rate appropriateness (why this chart type works)\n\n" ++
  "Format as JSON: \x7bchart_type: \"...\", dimensions: \x7b...\x7d, title: \"...\", confidence: 0.9\x7d"

/-- config.py SYSTEM_PROMPT_GUARDRAILS. -/
def SYSTEM_PROMPT_GUARDRAILS : String :=
  "You are a data quality and confidence expert. Your job is to assess \n" ++
  "the reliability of analysis results and add appropriate caveats.\n\n" ++
  "Consider:\n" ++
  "1. Data freshness (how recent is the data?)\n" ++
  "2. Sample size (enough data points to draw conclusions?)\n" ++
  "3. Data completeness (missing values, gaps?)\n" ++
  "4. Temporal stability (is trend likely to continue?)\n" ++
  "5. Segment representation (all segments well-represented?)\n" ++
  "6. External factors (seasonality, holidays, known issues?)\n\n" ++
  "Return JSON: \x7bconfidence_score: 0.85, caveats: [\"...\", \"...\"], \n" ++
  "data_quality_issues: [...], recommendations: [...]\x7d"

/-! ## agents/question_interpreter.py -/

/-- The generic capability-query phrases (bound inside the try block of
question_interpreter_node, after the JSON parse). -/
def generic_phrases : List String :=
  ["what can you do",
   "what can you help with",
   "how can you help",
   "what are your capabilities"]

/-- Fence stripping in the interpreter and planner try blocks: when the
response starts with backticks, drop every line whose stripped form
starts with backticks and re-join. -/
def stripCodeFences (response_text : String) : String :=
  if strStarts response_text "```" then
    let lines := strSplitOn response_text "\n"
    let kept := lines.filter (fun ln => !(strStarts (pyStrip ln) "```"))
    pyStrip (joinSep "\n" kept)
  else response_text

/-- The interpreter system message content. -/
def interpreter_system_content : String :=
  SYSTEM_PROMPT_INTERPRETER
  ++ "\n\nIMPORTANT:\n"
  ++ "You MUST respond with VALID JSON ONLY. "
  ++ "Do not include any commentary, markdown, or text outside the JSON.\n"
  ++ "Example:\n"
  ++ "\x7b\n"
  ++ "  \"intent\": \"trend_analysis\",\n"
  ++ "  \"entities\": [\"product\", \"region\"],\n"
  ++ "  \"metrics\": [\"revenue\"],\n"
  ++ "  \"time_window\": \"90d\",\n"
  ++ "  \"segments\": [\"region\"],\n"
  ++ "  \"confidence\": 0.85\n"
  ++ "\x7d\n"

/-- The interpreter human message content. -/
def interpreter_user_content (question : String) : String :=
  "USER QUESTION:\n" ++ question
  ++ "\n\nRespond with a single JSON object only, no explanation."

/-- Intent(...) as constructed inside the interpreter try block: dict
gets with defaults, float() on confidence, pydantic validation.  Any
failure here is an exception raised after generic_phrases was bound. -/
def buildIntentFromJson (intent_data : JValue) (is_generic : Bool) :
    Except PyExc Intent := do
  let task_type ← jGet intent_data "intent" (.str "custom") >>= jStr
  let entities ← jGet intent_data "entities" (.arr []) >>= jStrList
  let metrics ← jGet intent_data "metrics" (.arr []) >>= jStrList
  let time_window ← jGet intent_data "time_window" (.str "90d") >>= jStr
  let segments ← jGet intent_data "segments" (.arr []) >>= jStrList
  let confRaw ← jGet intent_data "confidence" (.num (4 / 5))
  let confidence ← pyFloat confRaw >>= validProb
  .ok { task_type := task_type, entities := entities, metrics := metrics,
        time_window := time_window, segments := segments,
        confidence := confidence, is_generic := is_generic }

/-- agents/question_interpreter.py question_interpreter_node.

The except handler re-derives q_lower but reads generic_phrases, which
is bound inside the try block only after llm.invoke and json.loads have
both returned; an exception from either of those therefore reaches the
handler with generic_phrases unbound and the handler itself raises
UnboundLocalError, which escapes the stage. -/
def question_interpreter_node (env : PyEnv) (s : AnalyticsState) :
    Except PyExc AnalyticsState :=
  let question := s.question
  match env.llm [("system", interpreter_system_content),
                 ("human", interpreter_user_content question)] with
  | .error _ => .error (.unboundLocalError "generic_phrases")
  | .ok content =>
    let response_text := stripCodeFences (pyStrip content)
    match env.jloads response_text with
    | .error _ => .error (.unboundLocalError "generic_phrases")
    | .ok intent_data =>
      let q_lower := pyToLower question
      let is_generic := generic_phrases.any (fun p => strContains q_lower p)
      match buildIntentFromJson intent_data is_generic with
      | .ok intent =>
          let nm := toString intent.metrics.length
          let s1 := { s with interpreted_intent := some intent }
          .ok (log_state_transition s1 "interpreting"
            ("Parsed question as " ++ intent.task_type ++ " analysis with "
              ++ nm ++ " metrics"))
      | .error e =>
          let fallback_intent : Intent :=
            { task_type := "custom", entities := [], metrics := [],
              time_window := "90d", segments := [], confidence := 1 / 2,
              is_generic := is_generic }
          let s1 := { s with
            interpreted_intent := some fallback_intent,
            error_state := some ("Failed to parse interpreter response cleanly: "
              ++ pyStrExc e) }
          .ok (log_state_transition s1 "interpreting"
            "Fell back to default intent due to JSON parse error")

/-! ## agents/capabilities_helper.py -/

/-- One sidebar line per known dataset. -/
def capabilitiesDatasetLine (ds : DatasetEntry) : String :=
  let ncols := toString ds.schema.columns.length
  "- " ++ ds.name ++ " (" ++ ncols ++ " columns) from " ++ pyOptStr ds.filename

/-- agents/capabilities_helper.py capabilities_helper_node. -/
def capabilities_helper_node (env : PyEnv) (s : AnalyticsState) :
    Except PyExc AnalyticsState :=
  match s.interpreted_intent with
  | none => .ok s
  | some intent =>
    if !intent.is_generic then .ok s
    else
      let datasets := env.catalog
      let intro :=
        ["I can help you analyze your data using multiple agents that:",
         "- Understand your question and map it to metrics/entities",
         "- Select relevant datasets and design an analysis plan",
         "- Generate and execute queries (or file-based analysis)",
         "- Extract insights, anomalies, and visualizations"]
      let datasetLines :=
        if !datasets.isEmpty then
          ["", "I currently see these user datasets:"]
            ++ datasets.map capabilitiesDatasetLine
        else
          ["", "You haven\x27t uploaded any datasets yet. You can upload CSVs in the left panel."]
      let examples :=
        ["", "Example questions you can ask:",
         "- \"Show revenue trend by region in the last quarter\"",
         "- \"Which products are underperforming based on sales and margin?\"",
         "- \"Why did our infrastructure cost spike last week?\"",
         "- \"Analyze web_sessions by country over time\""]
      let lines := intro ++ datasetLines ++ examples
      let s1 := { s with execution_log :=
        s.execution_log ++ ["[capabilities] " ++ joinSep "\n" lines] }
      .ok (log_state_transition s1 "completed"
        "Answered generic capabilities question instead of running full analysis")

/-! ## agents/data_advisor.py -/

/-- Catalog-side view of one dataset used by the advisor: exactly the
keys get_all_available_sources copies out of a catalog entry. -/
structure SourceMeta where
  location : Option String
  columns : List String
  primary_keys : List String
  quality_score : PyRat
  record_count : Int
deriving Repr

/-- data_advisor.py AVAILABLE_DATA_SOURCES: the static built-in sources.
They are exported (the UI reads them) but, as get_all_available_sources
shows, never merged into the advisor catalog. -/
def AVAILABLE_DATA_SOURCES : List (String × SourceMeta) :=
  [("revenue_fact",
    { location := some "analytics.revenue_fact",
      columns := ["date", "region", "product_id", "revenue", "units_sold", "customer_count"],
      primary_keys := ["date", "region", "product_id"],
      quality_score := 19 / 20, record_count := 500000 }),
   ("customer_dim",
    { location := some "analytics.customer_dim",
      columns := ["customer_id", "name", "segment", "lifetime_value", "signup_date", "region"],
      primary_keys := ["customer_id"],
      quality_score := 23 / 25, record_count := 100000 }),
   ("product_dim",
    { location := some "analytics.product_dim",
      columns := ["product_id", "name", "category", "subcategory", "launch_date", "status"],
      primary_keys := ["product_id"],
      quality_score := 49 / 50, record_count := 5000 }),
   ("cost_ledger",
    { location := some "analytics.cost_ledger",
      columns := ["date", "cost_center", "cost_type", "amount", "project_id"],
      primary_keys := ["date", "cost_center", "cost_type"],
      quality_score := 22 / 25, record_count := 1000000 })]

/-- data_advisor.py get_all_available_sources: one dict entry per
catalog dataset, copying location, columns, primary_keys, quality_score
(default 0.9) and rows (default 0).  The schema description and any
recorded sample values are not copied. -/
def get_all_available_sources (env : PyEnv) : List (String × SourceMeta) :=
  env.catalog.foldl
    (fun acc ds =>
      dictUpsert acc ds.name
        { location := ds.location,
          columns := ds.schema.columns,
          primary_keys := ds.schema.primary_keys,
          quality_score := ds.schema.quality_score.getD (9 / 10),
          record_count := ds.schema.rows.getD 0 })
    []

/-- The advisor matching text for one dataset: the lower-cased column
names joined by single spaces (" ".join(cols)). -/
def advisorJoinedCols (meta : SourceMeta) : String :=
  joinSep " " (meta.columns.map pyToLower)

/-- The advisor relevance test: some lower-cased metric or entity term
of the intent occurs as a substring of the joined column text. -/
def advisorMatches (intent : Intent) (meta : SourceMeta) : Bool :=
  let joined := advisorJoinedCols meta
  (intent.metrics.map pyToLower).any (fun m => strContains joined m)
    || (intent.entities.map pyToLower).any (fun e => strContains joined e)

/-- Python repr of a list of strings, as interpolated into the
low-quality warning. -/
def pyListRepr (xs : List String) : String :=
  "[" ++ joinSep ", " (xs.map (fun x => "\x27" ++ x ++ "\x27")) ++ "]"

/-- DataSource(...) construction with pydantic range validation. -/
def mkDataSource (name table_name : String) (columns primary_keys : List String)
    (quality : PyRat) (last_updated : String) (record_count : Option Int) :
    Except PyExc DataSource := do
  let q ← validProb quality
  .ok { name := name, table_name := table_name, columns := columns,
        primary_keys := primary_keys, quality_score := q,
        last_updated := last_updated, record_count := record_count }

/-- The DataSource materialized for one selected dataset: resolved
location is the catalog location unless missing or empty ("or" in
Python also replaces an empty string), else the dataset name. -/
def materializeSource (env : PyEnv) (source_key : String) (meta : SourceMeta) :
    Except PyExc DataSource :=
  let location :=
    match meta.location with
    | none => source_key
    | some l => if l = "" then source_key else l
  mkDataSource source_key location meta.columns meta.primary_keys
    meta.quality_score env.now (some meta.record_count)

/-- agents/data_advisor.py data_advisor_node (the revision that is live
in the file; the duplicated block after its return statement is dead
code). -/
def data_advisor_node (env : PyEnv) (s : AnalyticsState) :
    Except PyExc AnalyticsState :=
  match s.interpreted_intent with
  | none =>
      let s1 := { s with error_state := some "No interpreted intent available" }
      .ok (log_state_transition s1 "failed" "No interpreted intent available")
  | some intent =>
    let all_sources := get_all_available_sources env
    let matched := (all_sources.filter (fun p => advisorMatches intent p.2)).map
      (fun p => p.1)
    let fallback := matched.isEmpty || intent.is_generic
    let relevant_sources := if fallback then all_sources.map (fun p => p.1) else matched
    let warnings0 : List String :=
      if fallback then
        ["No specific datasets matched intent clearly - using all available datasets"]
      else []
    let built : Except PyExc (List DataSource) :=
      relevant_sources.mapM (fun source_key =>
        match all_sources.lookup source_key with
        | some meta => materializeSource env source_key meta
        | none => .error (.attrError "KeyError"))
    match built with
    | .error e => .error e
    | .ok sources =>
      let low_quality := sources.filter (fun src => decide (src.quality_score < 17 / 20))
      let warnings :=
        if !low_quality.isEmpty then
          warnings0 ++ ["Low quality datasets detected: "
            ++ pyListRepr (low_quality.map (fun src => src.name))]
        else warnings0
      let avg_quality : PyRat :=
        if !sources.isEmpty then
          (sources.map (fun src => src.quality_score)).sum / (sources.length : PyRat)
        else 0
      let data_sources : DataSources :=
        { sources := sources, total_sources := sources.length,
          coverage_score := if !sources.isEmpty then 9 / 10 else 0,
          warnings := warnings }
      let msg :=
        if !sources.isEmpty then
          let n := toString sources.length
          let avg := formatRat2 avg_quality
          "Found " ++ n ++ " relevant datasets with avg quality " ++ avg
        else "No datasets available"
      let s1 := { s with available_data_sources := some data_sources }
      .ok (log_state_transition s1 "validating" msg)

/-! ## agents/analysis_planner.py -/

/-- The planner system message content. -/
def planner_system_content : String :=
  SYSTEM_PROMPT_PLANNER
  ++ "\n\nIMPORTANT:\n"
  ++ "You MUST respond with VALID JSON ONLY. "
  ++ "Do not include any commentary, markdown, or text outside the JSON.\n"
  ++ "Example:\n"
  ++ "\x7b\n"
  ++ "  \"steps\": [\n"
  ++ "    \x7b\n"
  ++ "      \"description\": \"Compare revenue by region QoQ\",\n"
  ++ "      \"required_tables\": [\"revenue_fact\"],\n"
  ++ "      \"sql_template\": \"SELECT ...\",\n"
  ++ "      \"depends_on\": []\n"
  ++ "    \x7d\n"
  ++ "  ],\n"
  ++ "  \"estimated_time\": 30,\n"
  ++ "  \"warnings\": []\n"
  ++ "\x7d\n"

/-- One line of the planner prompt per selected source. -/
def plannerSourceLine (src : DataSource) : String :=
  let q := pyNum src.quality_score
  let rc := pyOptInt src.record_count
  "- " ++ src.name ++ ": " ++ src.table_name ++ " (quality: " ++ q
    ++ ", rows: " ++ rc ++ ")"

/-- The planner human message content. -/
def planner_user_content (intent : Intent) (data_sources : DataSources) : String :=
  let metricsTxt := joinSep ", " intent.metrics
  let entitiesTxt := joinSep ", " intent.entities
  let segmentsTxt := joinSep ", " intent.segments
  let sources_desc := joinSep "\n" (data_sources.sources.map plannerSourceLine)
  "ANALYSIS REQUEST:\n"
  ++ "Task Type: " ++ intent.task_type ++ "\n"
  ++ "Metrics: " ++ metricsTxt ++ "\n"
  ++ "Entities: " ++ entitiesTxt ++ "\n"
  ++ "Time Window: " ++ intent.time_window ++ "\n"
  ++ "Segments: " ++ segmentsTxt ++ "\n\n"
  ++ "AVAILABLE DATA SOURCES:\n"
  ++ sources_desc ++ "\n\n"
  ++ "Design a detailed multi-step analysis plan.\n"
  ++ "Respond with a single JSON object only."

/-- The per-step loop of the planner try block: dict gets with defaults,
sequential numbering from 1, pydantic validation. -/
def buildStepsFromJson : List JValue → Int → Except PyExc (List AnalysisStep)
  | [], _ => .ok []
  | step_data :: rest, i => do
      let description ← jGet step_data "description" (.str "") >>= jStr
      let required_tables ← jGet step_data "required_tables" (.arr []) >>= jStrList
      let sql_template ← jGet step_data "sql_template" .null >>= jOptStr
      let depends_on ← jGet step_data "depends_on" (.arr []) >>= jList
      let more ← buildStepsFromJson rest (i + 1)
      .ok ({ step_number := i, description := description,
             required_tables := required_tables, sql_template := sql_template,
             depends_on := depends_on } :: more)

/-- AnalysisPlan built from parsed planner JSON (the body of the try
block after json.loads). -/
def buildPlanFromJson (plan_data : JValue) : Except PyExc AnalysisPlan := do
  let rawSteps ← jGet plan_data "steps" (.arr []) >>= jList
  let steps ← buildStepsFromJson rawSteps 1
  let est ← jGet plan_data "estimated_time" (.num 30) >>= pyFloat
  let warnings ← jGet plan_data "warnings" (.arr []) >>= jStrList
  .ok { steps := steps, total_steps := steps.length,
        estimated_runtime_seconds := est, estimated_rows_returned := 0,
        warnings := warnings, data_quality_issues := [] }

/-- agents/analysis_planner.py analysis_planner_node. -/
def analysis_planner_node (env : PyEnv) (s : AnalyticsState) :
    Except PyExc AnalyticsState :=
  match s.interpreted_intent, s.available_data_sources with
  | none, _ =>
      let s1 := { s with error_state := some "Missing intent or data sources" }
      .ok (log_state_transition s1 "failed" "Missing intent or data sources")
  | some _, none =>
      let s1 := { s with error_state := some "Missing intent or data sources" }
      .ok (log_state_transition s1 "failed" "Missing intent or data sources")
  | some intent, some data_sources =>
    let tryResult : Except PyExc AnalysisPlan := do
      let content ← env.llm [("system", planner_system_content),
                             ("human", planner_user_content intent data_sources)]
      let response_text := stripCodeFences (pyStrip content)
      let plan_data ← env.jloads response_text
      buildPlanFromJson plan_data
    match tryResult with
    | .ok plan =>
        let nsteps := toString plan.steps.length
        let est := pyNum plan.estimated_runtime_seconds
        let s1 := { s with analysis_plan := some plan }
        .ok (log_state_transition s1 "planning"
          ("Created " ++ nsteps ++ "-step analysis plan (est. " ++ est ++ "s)"))
    | .error e =>
        let fallback_step : AnalysisStep :=
          { step_number := 1,
            description := "Basic aggregation over primary metric",
            required_tables := data_sources.sources.map (fun src => src.name),
            sql_template := none, depends_on := [] }
        let plan : AnalysisPlan :=
          { steps := [fallback_step], total_steps := 1,
            estimated_runtime_seconds := 10,
            warnings := ["Planner JSON parse error, using fallback plan: "
              ++ pyStrExc e] }
        let s1 := { s with
          analysis_plan := some plan,
          error_state := some ("Planning failed to parse JSON cleanly: "
            ++ pyStrExc e) }
        .ok (log_state_transition s1 "planning"
          "Fell back to default single-step analysis plan due to JSON parse error")

/-! ## agents/execution_agent.py -/

/-- execution_agent.py build_schema_context. -/
def build_schema_context (data_sources : DataSources) : String :=
  joinSep "\n" (data_sources.sources.map (fun src =>
    let cols := joinSep ", " src.columns
    "TABLE " ++ src.name ++ " (" ++ cols ++ ")"))

/-- The human message of generate_sql_for_step. -/
def sql_user_content (question step_description schema_text : String) : String :=
  "QUESTION:\n" ++ question ++ "\n\n"
  ++ "ANALYSIS STEP:\n" ++ step_description ++ "\n\n"
  ++ "AVAILABLE TABLES:\n" ++ schema_text ++ "\n\n"
  ++ "Return only the SQL query."

/-- Fence stripping in generate_sql_for_step:
re.sub("^```(?:sql)?\\s*", "", .) then re.sub("\\s*```$", "", .). -/
def stripSqlFences (sql : String) : String :=
  let sql1 :=
    if strStarts sql "```sql" then strDropWs (strDrop sql 6)
    else if strStarts sql "```" then strDropWs (strDrop sql 3)
    else sql
  let rtrimmed := pyRStrip sql1
  if strEnds rtrimmed "```" then strDropRight rtrimmed 3 else sql1

/-- execution_agent.py generate_sql_for_step: one capability call per
plan step; the response is stripped of code fences and whitespace. -/
def generate_sql_for_step (env : PyEnv) (step : AnalysisStep)
    (question : String) (data_sources : DataSources) : Except PyExc String := do
  let schema_text := build_schema_context data_sources
  let content ← env.llm [("system", SYSTEM_PROMPT_SQL),
                         ("human", sql_user_content question step.description schema_text)]
  .ok (pyStrip (stripSqlFences (pyStrip content)))

/-- The pseudo-query substituted when SQL generation fails and the step
has no template (or an empty one: Python "or"). -/
def pseudoQuery (description : String) (e : PyExc) : String :=
  "-- Pseudo query for: " ++ description ++ " (SQL generation failed: "
    ++ pyStrExc e ++ ")"

/-- execution_agent.py execution_agent_node: turn each plan step into a
pending QueryExecutionRecord, falling back to the step template or a
placeholder comment when generation fails.  A missing data-source set
makes build_schema_context raise inside the per-step try, which lands in
the same fallback. -/
def execution_agent_node (env : PyEnv) (s : AnalyticsState) :
    Except PyExc AnalyticsState :=
  match s.analysis_plan with
  | none =>
      let s1 := { s with error_state := some "No analysis plan available" }
      .ok (log_state_transition s1 "failed" "No analysis plan available")
  | some plan =>
    if plan.steps.isEmpty then
      let s1 := { s with error_state := some "No analysis plan available" }
      .ok (log_state_transition s1 "failed" "No analysis plan available")
    else
      let queries := plan.steps.map (fun step =>
        let description := if step.description = "" then "Analysis step" else step.description
        let genResult : Except PyExc String :=
          match s.available_data_sources with
          | none => .error (.attrError "NoneType object has no attribute sources")
          | some ds => generate_sql_for_step env step s.question ds
        let sql :=
          match genResult with
          | .ok text => text
          | .error e =>
              match step.sql_template with
              | some t => if t = "" then pseudoQuery description e else t
              | none => pseudoQuery description e
        { step_number := step.step_number, description := description,
          sql := sql, executed := false, success := none,
          rows_returned := none, error_message := none })
      let nq := toString queries.length
      let s1 := { s with pending_queries := queries }
      .ok (log_state_transition s1 "planning"
        ("Prepared " ++ nq ++ " queries for execution"))

/-- execution_agent.py _is_file_backed_table. -/
def is_file_backed_table (table_name : String) : Bool :=
  if table_name = "" then false
  else strStarts table_name "data/datasets/"
    || strStarts table_name "file://data/datasets/"

/-- execution_agent.py _load_dataframe_from_table_name: strip a
file:// scheme prefix, then resolve the path; a missing file raises. -/
def load_dataframe_from_table_name (env : PyEnv) (table_name : String) :
    Except PyExc DataFrame :=
  let path_str := if strStarts table_name "file://" then strDrop table_name 7
                  else table_name
  match env.fs path_str with
  | none => .error (.fileNotFoundError ("Dataset file not found at " ++ path_str))
  | some df => .ok df

/-- execution_agent.py _infer_schema_roles: numeric columns are metric
candidates; non-numeric columns with 2..50 distinct values are
dimension candidates. -/
def infer_schema_roles (df : DataFrame) : List String × List String :=
  let numeric_cols := df.cols.filter (fun c => df.isNumericCol c)
  let non_numeric_cols := df.cols.filter (fun c => !(numeric_cols.contains c))
  let dims := non_numeric_cols.filter (fun c =>
    decide (1 < df.nunique c) && decide (df.nunique c ≤ 50))
  (numeric_cols, dims)

/-- The numeric value of a cell, if any. -/
def cellNum : Cell → Option PyRat
  | .num q => some q
  | _ => none

/-- First-appearance distinct values of a column (nulls kept): the group
keys the engine model uses. -/
def DataFrame.distinctAll (df : DataFrame) (c : String) : List Cell :=
  (df.colCells c).foldl (fun acc x => if acc.contains x then acc else acc ++ [x]) []

/-- Stable insertion into a list sorted descending by sum. -/
def insertDescBySum (x : GroupRow) : List GroupRow → List GroupRow
  | [] => [x]
  | y :: ys => if decide (y.sum < x.sum) then x :: y :: ys
               else y :: insertDescBySum x ys

/-- Stable descending sort by the sum aggregate (the model for pandas
sort_values("sum", ascending=False); the library leaves tie order
unspecified, the model keeps the incoming order). -/
def sortDescBySum (l : List GroupRow) : List GroupRow :=
  l.foldl (fun acc x => insertDescBySum x acc) []

/-- The grouped aggregation of _analyze_dataframe: group the first
numeric column by the first low-cardinality non-numeric column with
count/mean/sum per group (non-null values), sorted descending by sum,
first 20 groups.  Group keys follow first appearance; pandas emits them
sorted, which only permutes rows before the sort on sum. -/
def pandasGroupby (df : DataFrame) (dim metric : String) : Option GroupbyResult :=
  match df.colIdx dim, df.colIdx metric with
  | some di, some mi =>
      let keys := ((df.colCells dim).filter (fun x => !(x == Cell.null))).foldl
        (fun acc x => if acc.contains x then acc else acc ++ [x]) []
      let grows := keys.map (fun k =>
        let vals := df.rows.filterMap (fun r =>
          if r.getD di Cell.null == k then cellNum (r.getD mi Cell.null) else none)
        let cnt := vals.length
        let total := vals.sum
        { key := k, count := cnt, mean := total / (cnt : PyRat), sum := total })
      some { dimension := dim, metric := metric,
             data := (sortDescBySum grows).take 20 }
  | _, _ => none

/-- execution_agent.py _analyze_dataframe: describe (modelled as one
record per column with its non-null count), a 20-row sample, and the
grouped aggregation when both a metric and a dimension exist. -/
def analyze_dataframe (df : DataFrame) : SourceAnalysis :=
  let summary := df.cols.map (fun c =>
    (c, ((df.colCells c).filter (fun x => !(x == Cell.null))).length))
  let sample := df.rows.take 20
  let (metrics, dims) := infer_schema_roles df
  let groupby :=
    match metrics, dims with
    | metric :: _, dim :: _ => pandasGroupby df dim metric
    | _, _ => none
  { summary := some summary, summary_error := none,
    sample := some sample, sample_error := none,
    groupby := groupby, groupby_error := none }

/-- "SUM(col)" recognizer of the engine model. -/
def parseSumExpr (w : String) : Option String :=
  if strStarts w "SUM(" && strEnds w ")" then
    some (strDropRight (strDrop w 4) 1)
  else none

/-- Model of DuckDB con.execute(sql).fetchdf() for the fragment the
spec exercises: SELECT key, SUM(metric) FROM table GROUP BY key.  Any
other query text is an engine error (the stage records it and moves
on), so no claim depends on wider SQL coverage. -/
def duckdbExecute (tables : List (String × DataFrame)) (sql : String) :
    Except String DataFrame :=
  match strSplitOn sql " " with
  | [kwSelect, keyColComma, sumW, kwFrom, tbl, kwGroup, kwBy, keyCol] =>
    if kwSelect = "SELECT" && kwFrom = "FROM" && kwGroup = "GROUP"
        && kwBy = "BY" && keyColComma = keyCol ++ "," then
      match parseSumExpr sumW, tables.lookup tbl with
      | some mcol, some df =>
          match df.colIdx keyCol, df.colIdx mcol with
          | some ki, some mi =>
              let keys := df.distinctAll keyCol
              let rows := keys.map (fun k =>
                let vals := df.rows.filterMap (fun r =>
                  if r.getD ki Cell.null == k then cellNum (r.getD mi Cell.null)
                  else none)
                [k, Cell.num vals.sum])
              .ok { cols := [keyCol, "sum(" ++ mcol ++ ")"], rows := rows }
          | _, _ => .error "Binder Error: Referenced column not found"
      | _, _ => .error "Catalog Error: query not supported by the engine model"
    else .error "Parser Error: query shape not supported by the engine model"
  | _ => .error "Parser Error: query shape not supported by the engine model"

/-- The registration loop of _execute_sql_on_csvs: load each file-backed
source and register it under its logical name; failures only log. -/
def registerSources (env : PyEnv) (file_backed : List DataSource) :
    List (String × DataFrame) × List String :=
  file_backed.foldl
    (fun acc source =>
      let (reg, lines) := acc
      match load_dataframe_from_table_name env source.table_name with
      | .ok df =>
          (dictUpsert reg source.name df,
           lines ++ ["[execute] Registered table \x27" ++ source.name ++ "\x27 ("
             ++ toString df.rows.length ++ " rows, "
             ++ toString df.cols.length ++ " cols)"])
      | .error e =>
          (reg, lines ++ ["[execute] Failed to register \x27" ++ source.name
            ++ "\x27: " ++ pyStrExc e]))
    ([], [])

/-- The query loop of _execute_sql_on_csvs: empty or comment-only text
is marked failed without touching the engine; otherwise the engine runs
and the record plus result dict are updated. -/
def runQueriesOnEngine (registered : List (String × DataFrame))
    (queries : List QueryExecutionRecord) :
    List QueryExecutionRecord × List (String × QueryResultEntry) × List String :=
  queries.foldl
    (fun acc q =>
      let (qs, results, lines) := acc
      if q.sql = "" || strStarts q.sql "--" then
        (qs ++ [{ q with
                  executed := true, success := some false,
                  error_message := some "No valid SQL generated" }],
         results, lines)
      else
        match duckdbExecute registered q.sql with
        | .ok rdf =>
            let n := rdf.rows.length
            let key := "step_" ++ toString q.step_number ++ ": " ++ q.description
            let entry : QueryResultEntry :=
              { sql := q.sql, data := rdf.rows.take 50, row_count := n,
                columns := rdf.cols }
            (qs ++ [{ q with
                      executed := true, success := some true,
                      rows_returned := some (n : Int) }],
             dictUpsert results key entry,
             lines ++ ["[execute] SQL step " ++ toString q.step_number
               ++ " returned " ++ toString n ++ " rows"])
        | .error emsg =>
            (qs ++ [{ q with
                      executed := true, success := some false,
                      error_message := some emsg }],
             results,
             lines ++ ["[execute] SQL step " ++ toString q.step_number
               ++ " failed: " ++ emsg]))
    ([], [], [])

/-- execution_agent.py _execute_sql_on_csvs: returns the updated query
records, the per-step result dict, and the appended log lines. -/
def execute_sql_on_csvs (env : PyEnv) (queries : List QueryExecutionRecord)
    (file_backed : List DataSource) :
    List QueryExecutionRecord × List (String × QueryResultEntry) × List String :=
  if !HAS_DUCKDB then (queries, [], [])
  else
    let (registered, regLines) := registerSources env file_backed
    if registered.isEmpty then (queries, [], regLines)
    else
      let (qs, results, qLines) := runQueriesOnEngine registered queries
      (qs, results, regLines ++ qLines)

/-- The supplementary pandas pass of execute_queries_node: analyze every
file-backed source, adding its full row count; per-source failures are
collected as error strings. -/
def summaryPass (env : PyEnv) (file_backed : List DataSource) :
    List (String × SourceAnalysis) × Nat × List String × List String :=
  file_backed.foldl
    (fun acc source =>
      let (per, rows, errs, lines) := acc
      match load_dataframe_from_table_name env source.table_name with
      | .ok df =>
          (dictUpsert per source.name (analyze_dataframe df),
           rows + df.rows.length, errs,
           lines ++ ["[execute] Summary analysis for \x27" ++ source.name
             ++ "\x27 with " ++ toString df.rows.length ++ " rows"])
      | .error e =>
          let msg := "Failed to analyze dataset \x27" ++ source.name ++ "\x27: "
            ++ pyStrExc e
          (per, rows, errs ++ [msg], lines ++ ["[execute] " ++ msg]))
    ([], 0, [], [])

/-- execution_agent.py execute_queries_node. -/
def execute_queries_node (env : PyEnv) (s : AnalyticsState) :
    Except PyExc AnalyticsState :=
  let queries := s.pending_queries
  match s.available_data_sources with
  | none =>
      let s1 := { s with error_state := some "No data sources available for execution" }
      .ok (log_state_transition s1 "failed" "No data sources available for execution")
  | some data_sources =>
    if data_sources.sources.isEmpty then
      let s1 := { s with error_state := some "No data sources available for execution" }
      .ok (log_state_transition s1 "failed" "No data sources available for execution")
    else
      let file_backed := data_sources.sources.filter
        (fun src => is_file_backed_table src.table_name)
      let (queries1, sql_results, engineLines) :=
        if !file_backed.isEmpty && HAS_DUCKDB then
          execute_sql_on_csvs env queries file_backed
        else (queries, [], [])
      let queryResultsEntry : Option (List (String × QueryResultEntry)) :=
        if sql_results.isEmpty then none else some sql_results
      let totalFromSql := (sql_results.map (fun p => p.2.row_count)).sum
      let (per_source, rowsFromSummary, execution_errors, sumLines) :=
        summaryPass env file_backed
      let non_file := data_sources.sources.filter
        (fun src => !(file_backed.contains src))
      let (queries2, rowsFromSim, simLines) :=
        if !non_file.isEmpty then
          (queries1.map (fun q =>
             if !q.executed then
               { q with
                 executed := true, success := some true,
                 rows_returned := some 100 }
             else q),
           non_file.length * 100,
           ["[execute] Simulated execution for " ++ toString non_file.length
             ++ " warehouse datasets"])
        else (queries1, 0, [])
      let total_rows := totalFromSql + rowsFromSummary + rowsFromSim
      let exec_results : ExecutionResults :=
        { queries_executed := queries2, row_count := total_rows,
          execution_time_total_ms := env.elapsedMs,
          success := execution_errors.isEmpty, errors := execution_errors,
          result_data := some { query_results := queryResultsEntry,
                                per_source := per_source } }
      let s1 := { s with
        execution_results := some exec_results,
        execution_errors := execution_errors,
        error_state := if execution_errors.isEmpty then s.error_state
                       else some (joinSep "; " execution_errors),
        execution_log := s.execution_log ++ engineLines ++ sumLines ++ simLines }
      let n := toString data_sources.sources.length
      let ms := toString env.elapsedMs
      let tr := toString total_rows
      .ok (log_state_transition s1 "executing"
        ("Executed analysis on " ++ n ++ " datasets in " ++ ms
          ++ "ms, total rows ~" ++ tr))

/-! ## Defensive JSON extraction (shared by insight, visualization and
guardrails agents) and prompt serialization helpers -/

/-- The backtick character (via a string literal). -/
def btickChar : Char := "`".toList.headD ' '

/-- The left brace character. -/
def lbraceChar : Char := "\x7b".toList.headD ' '

/-- The right brace character. -/
def rbraceChar : Char := "\x7d".toList.headD ' '

/-- Global removal of markdown fence markers:
re.sub("```(?:json)?\\s*", "", .), scanned left to right.  The fuel is
the input length, which bounds the recursion. -/
def stripFenceMarksFuel : Nat → List Char → List Char
  | 0, cs => cs
  | _ + 1, [] => []
  | fuel + 1, c :: rest =>
      if startsList "```".toList (c :: rest) then
        let r1 := rest.drop 2
        let r2 := if startsList "json".toList r1 then r1.drop 4 else r1
        stripFenceMarksFuel fuel (r2.dropWhile Char.isWhitespace)
      else c :: stripFenceMarksFuel fuel rest

/-- Fence-marker removal on strings. -/
def stripFenceMarks (text : String) : String :=
  String.mk (stripFenceMarksFuel text.length text.toList)

/-- str.rstrip("`"). -/
def rstripBticks (s : String) : String :=
  String.mk ((s.toList.reverse.dropWhile (fun c => c == btickChar)).reverse)

/-- The first-brace-to-last-brace span searched by
re.search("\\\x7b.*\\\x7d", ., re.DOTALL). -/
def firstBraceSpan (s : String) : Option String :=
  let cs := s.toList
  match cs.findIdx? (fun c => c == lbraceChar),
        cs.reverse.findIdx? (fun c => c == rbraceChar) with
  | some i, some jr =>
      let j := cs.length - 1 - jr
      if i < j then some (String.mk ((cs.drop i).take (j - i + 1))) else none
  | _, _ => none

/-- The _extract_json helper shared (as three identical copies) by the
insight, visualization and guardrails agents: strip fences and stray
backticks, parse the whole text, else parse the first brace-delimited
span, else return the empty dict.  It never raises. -/
def extract_json (env : PyEnv) (text : String) : JValue :=
  let cleaned := pyStrip (rstripBticks (pyStrip (stripFenceMarks text)))
  match env.jloads cleaned with
  | .ok j => j
  | .error _ =>
      match firstBraceSpan cleaned with
      | none => .obj []
      | some span =>
          match env.jloads span with
          | .ok j => j
          | .error _ => .obj []

/-- JSON string rendering used in prompt text (escapes not modelled;
the text only feeds the capability oracle). -/
def jsonStr (s : String) : String := "\"" ++ s ++ "\""

/-- JSON rendering of a cell in prompt text. -/
def cellJson : Cell → String
  | .null => "null"
  | .num q => pyNum q
  | .str s => jsonStr s

/-- json.dumps of row dicts (indentation not reproduced; prompt-only). -/
def recordsJson (cols : List String) (rows : List (List Cell)) : String :=
  let rowJson := fun (r : List Cell) =>
    "\x7b" ++ joinSep ", "
      ((cols.zip r).map (fun p => jsonStr p.1 ++ ": " ++ cellJson p.2))
    ++ "\x7d"
  "[" ++ joinSep ", " (rows.map rowJson) ++ "]"

/-- json.dumps of groupby records (prompt-only). -/
def groupRowsJson (dim : String) (rows : List GroupRow) : String :=
  let rowJson := fun (g : GroupRow) =>
    "\x7b" ++ jsonStr dim ++ ": " ++ cellJson g.key
    ++ ", \"count\": " ++ toString g.count
    ++ ", \"mean\": " ++ pyNum g.mean
    ++ ", \"sum\": " ++ pyNum g.sum ++ "\x7d"
  "[" ++ joinSep ", " (rows.map rowJson) ++ "]"

/-- json.dumps of the modelled describe records (prompt-only). -/
def summaryJson (xs : List (String × Nat)) : String :=
  let rowJson := fun (p : String × Nat) =>
    "\x7b\"index\": " ++ jsonStr p.1 ++ ", \"count\": " ++ toString p.2 ++ "\x7d"
  "[" ++ joinSep ", " (xs.map rowJson) ++ "]"

/-- json.dumps of one per-source analysis dict (prompt-only). -/
def sourceAnalysisJson (a : SourceAnalysis) : String :=
  let summaryPart :=
    match a.summary with
    | some l => ["\"summary\": " ++ summaryJson l]
    | none => []
  let samplePart :=
    match a.sample with
    | some rows => ["\"sample\": " ++ recordsJson [] rows]
    | none => []
  let groupbyPart :=
    match a.groupby with
    | some gb => ["\"groupby\": \x7b\"dimension\": " ++ jsonStr gb.dimension
        ++ ", \"metric\": " ++ jsonStr gb.metric
        ++ ", \"data\": " ++ groupRowsJson gb.dimension gb.data ++ "\x7d"]
    | none => []
  "\x7b" ++ joinSep ", " (summaryPart ++ samplePart ++ groupbyPart) ++ "\x7d"

/-- json.dumps of a query-result entry (prompt-only). -/
def queryResultEntryJson (e : QueryResultEntry) : String :=
  "\x7b\"sql\": " ++ jsonStr e.sql
  ++ ", \"data\": " ++ recordsJson e.columns e.data
  ++ ", \"row_count\": " ++ toString e.row_count
  ++ ", \"columns\": " ++ ("[" ++ joinSep ", " (e.columns.map jsonStr) ++ "]")
  ++ "\x7d"

/-- json.dumps of the whole result_data dict (prompt-only). -/
def resultDataJson (rd : ResultData) : String :=
  let qrPart :=
    match rd.query_results with
    | some entries => ["\"query_results\": \x7b" ++ joinSep ", "
        (entries.map (fun p => jsonStr p.1 ++ ": " ++ queryResultEntryJson p.2))
        ++ "\x7d"]
    | none => []
  let srcParts := rd.per_source.map (fun p =>
    jsonStr p.1 ++ ": " ++ sourceAnalysisJson p.2)
  "\x7b" ++ joinSep ", " (qrPart ++ srcParts) ++ "\x7d"

/-- json.dumps of insights passed to the guardrails prompt
(prompt-only). -/
def insightsJson (l : List Insight) : String :=
  let one := fun (i : Insight) =>
    "\x7b\"finding\": " ++ jsonStr i.finding
    ++ ", \"metric\": " ++ jsonStr i.metric
    ++ ", \"magnitude\": " ++ jsonStr i.magnitude
    ++ ", \"confidence\": " ++ pyNum i.confidence
    ++ ", \"business_impact\": " ++ jsonStr i.business_impact ++ "\x7d"
  "[" ++ joinSep ", " (l.map one) ++ "]"

/-! ## agents/answer_synthesizer.py -/

/-- One block of the query-results section of the synthesizer prompt. -/
def queryResultBlock (p : String × QueryResultEntry) : String :=
  let data_str := recordsJson p.2.columns (p.2.data.take 30)
  "\n--- " ++ p.1 ++ " ---\n"
  ++ "SQL: " ++ p.2.sql ++ "\n"
  ++ "Columns: " ++ pyListRepr p.2.columns ++ "\n"
  ++ "Rows returned: " ++ toString p.2.row_count ++ "\n"
  ++ "Data:\n" ++ data_str ++ "\n"

/-- agents/answer_synthesizer.py answer_synthesizer_node. -/
def answer_synthesizer_node (env : PyEnv) (s : AnalyticsState) :
    Except PyExc AnalyticsState :=
  let noData : Except PyExc AnalyticsState :=
    let s1 := { s with direct_answer := some "No data was available to answer this question." }
    .ok (log_state_transition s1 "answering" "No data for answer synthesis")
  match s.execution_results with
  | none => noData
  | some exec_results =>
    match exec_results.result_data with
    | none => noData
    | some result_data =>
      if !result_data.isTruthy then noData
      else
        let query_results_text :=
          match result_data.query_results with
          | some entries => joinSep "" (entries.map queryResultBlock)
          | none => ""
        let summary_text := joinSep ""
          ((result_data.per_source.filter (fun p => p.2.summary.isSome)).map
            (fun p => "\nDataset \x27" ++ p.1 ++ "\x27 summary stats available.\n"))
        let query_results_text :=
          if query_results_text.length > 10000 then
            strTake query_results_text 10000 ++ "\n... (truncated)"
          else query_results_text
        let prompt :=
          "You are a data analyst. The user asked:\n\n"
          ++ "QUESTION: " ++ s.question ++ "\n\n"
          ++ "Here are the SQL query results from the actual data:\n\n"
          ++ query_results_text ++ "\n\n"
          ++ summary_text ++ "\n\n"
          ++ "Based on these results, provide a clear, direct answer to the user\x27s question.\n"
          ++ "- Lead with the answer (numbers, names, rankings).\n"
          ++ "- Be specific: cite actual values from the data.\n"
          ++ "- If the query returned no rows or failed, explain what that means.\n"
          ++ "- Keep it concise but complete (2-5 sentences for simple questions, more for complex ones).\n"
          ++ "- Use markdown formatting for readability (bold key numbers, use bullet points for lists)."
        let answer :=
          match env.llm [("user", prompt)] with
          | .ok content => pyStrip content
          | .error e => "Could not synthesize answer: " ++ pyStrExc e
        let s1 := { s with direct_answer := some answer }
        .ok (log_state_transition s1 "answering"
          ("Generated direct answer (" ++ toString answer.length ++ " chars)"))

/-! ## agents/insight_generator.py -/

/-- The per-item loop parsing insights from the capability JSON. -/
def buildInsightsFromJson : List JValue → Except PyExc (List Insight)
  | [] => .ok []
  | insight_obj :: rest => do
      let finding ← jGet insight_obj "finding" (.str "") >>= jStr
      let metric ← jGet insight_obj "metric" (.str "unknown") >>= jStr
      let magnitude ← jGet insight_obj "magnitude" (.str "N/A") >>= jStr
      let confidence ← jGet insight_obj "confidence" (.num (3 / 4)) >>= pyFloat
        >>= validProb
      let business_impact ← jGet insight_obj "business_impact" (.str "medium")
        >>= jStr
      let more ← buildInsightsFromJson rest
      .ok ({ finding := finding, metric := metric, magnitude := magnitude,
             confidence := confidence, supporting_evidence := none,
             business_impact := business_impact } :: more)

/-- The per-item loop parsing anomalies from the capability JSON. -/
def buildAnomaliesFromJson : List JValue → Except PyExc (List Anomaly)
  | [] => .ok []
  | anomaly_obj :: rest => do
      let description ← jGet anomaly_obj "description" (.str "") >>= jStr
      let affected_metric ← jGet anomaly_obj "affected_metric" (.str "unknown")
        >>= jStr
      let magnitude ← jGet anomaly_obj "magnitude" (.str "N/A") >>= jStr
      let confidence ← jGet anomaly_obj "confidence" (.num (3 / 4)) >>= pyFloat
        >>= validProb
      let severity ← jGet anomaly_obj "severity" (.str "medium") >>= jStr
      let more ← buildAnomaliesFromJson rest
      .ok ({ description := description, severity := severity,
             affected_metric := affected_metric, affected_segment := none,
             magnitude := magnitude, confidence := confidence } :: more)

/-- agents/insight_generator.py insight_generator_node. -/
def insight_generator_node (env : PyEnv) (s : AnalyticsState) :
    Except PyExc AnalyticsState :=
  let missing :=
    match s.execution_results with
    | none => true
    | some r =>
        match r.result_data with
        | none => true
        | some rd => !rd.isTruthy
  if missing then
    let s1 := { s with error_state := some "No data available for insight generation" }
    .ok (log_state_transition s1 "failed" "No data available for insight generation")
  else
    match s.execution_results with
    | none =>
        let s1 := { s with error_state := some "No data available for insight generation" }
        .ok (log_state_transition s1 "failed" "No data available for insight generation")
    | some exec_results =>
      let rd := exec_results.result_data.getD {}
      let results_summary0 := resultDataJson rd
      let results_summary :=
        if results_summary0.length > 12000 then
          strTake results_summary0 12000 ++ "\n... (truncated)"
        else results_summary0
      let prompt :=
        SYSTEM_PROMPT_INSIGHT
        ++ "\n\nDATA RESULTS:\n" ++ results_summary
        ++ "\n\nAnalyze these results and extract key insights, anomalies, and findings.\n"
        ++ "Format response as JSON with: insights (list), anomalies (list), business_impact."
      let tryResult : Except PyExc (List Insight × List Anomaly) := do
        let content ← env.llm [("user", prompt)]
        let insight_data := extract_json env content
        let rawInsights ← jGet insight_data "insights" (.arr []) >>= jList
        let insights ← buildInsightsFromJson rawInsights
        let rawAnomalies ← jGet insight_data "anomalies" (.arr []) >>= jList
        let anomalies ← buildAnomaliesFromJson rawAnomalies
        .ok (insights, anomalies)
      match tryResult with
      | .ok (insights, anomalies) =>
          let ni := toString insights.length
          let na := toString anomalies.length
          let s1 := { s with insights := insights, anomalies := anomalies }
          .ok (log_state_transition s1 "visualizing"
            ("Generated " ++ ni ++ " insights and detected " ++ na ++ " anomalies"))
      | .error e =>
          let s1 := { s with error_state := some ("Insight generation failed: "
            ++ pyStrExc e) }
          .ok (log_state_transition s1 "failed"
            ("Insight generation failed: " ++ pyStrExc e))

/-! ## agents/visualization_agent.py -/

/-- The compact per-dataset summary block of the visualization prompt
(result_data iteration includes the reserved query_results key, which
has neither a groupby nor a summary entry). -/
def vizSummaryPart (ds_name : String) (a : SourceAnalysis) : String :=
  let base := "Dataset: " ++ ds_name ++ "\n"
  let gbPart :=
    match a.groupby with
    | some gb =>
        "  GroupBy: " ++ gb.dimension ++ " by " ++ gb.metric ++ "\n"
        ++ "  Top rows: " ++ groupRowsJson gb.dimension (gb.data.take 5) ++ "\n"
    | none => ""
  let sumPart :=
    match a.summary with
    | some l => "  Summary stats (first 5): " ++ summaryJson (l.take 5) ++ "\n"
    | none => ""
  base ++ gbPart ++ sumPart

/-- The joined data summary of the visualization prompt boxed to 8000
characters. -/
def vizDataSummary (rd : ResultData) : String :=
  let qrParts :=
    match rd.query_results with
    | some _ => ["Dataset: query_results\n"]
    | none => []
  let srcParts := rd.per_source.map (fun p => vizSummaryPart p.1 p.2)
  let data_summary := joinSep "\n" (qrParts ++ srcParts)
  if data_summary.length > 8000 then
    strTake data_summary 8000 ++ "\n... (truncated)"
  else data_summary

/-- The per-insight visualization prompt. -/
def vizPrompt (insight : Insight) (data_summary : String) : String :=
  SYSTEM_PROMPT_VISUALIZER
  ++ "\n\nINSIGHT TO VISUALIZE:\n"
  ++ "Finding: " ++ insight.finding ++ "\n"
  ++ "Metric: " ++ insight.metric ++ "\n"
  ++ "Magnitude: " ++ insight.magnitude ++ "\n\n"
  ++ "AVAILABLE DATA:\n" ++ data_summary
  ++ "\n\nRecommend the best chart type and configuration for this insight.\n"
  ++ "Return JSON: \x7b\"chart_type\": \"...\", \"title\": \"...\", \"dimensions\": \x7b\"x\": \"...\", \"y\": \"...\"\x7d, \"confidence\": 0.85\x7d"

/-- Visualization(...) built from one capability response inside the
per-insight try. -/
def buildVizFromJson (env : PyEnv) (chart_idx : Nat) (insight : Insight)
    (content : String) : Except PyExc Visualization := do
  let viz_data := extract_json env content
  let chart_type ← jGet viz_data "chart_type" (.str "bar") >>= jStr
  let title ← jGet viz_data "title"
    (.str ("Chart for: " ++ strTake insight.finding 60)) >>= jStr
  let data_fields ← jGet viz_data "dimensions" (.obj []) >>= jDict
  let score ← jGet viz_data "confidence" (.num (17 / 20)) >>= pyFloat >>= validProb
  .ok { chart_id := "chart_" ++ toString chart_idx, chart_type := chart_type,
        title := title, data_fields := data_fields,
        description := "Visualization for: " ++ insight.finding,
        appropriateness_score := score }

/-- The per-insight loop (first 3 insights): capability call plus JSON
extraction; failures append to the running execution_errors list and do
not advance the chart index. -/
def vizInsightLoop (env : PyEnv) (data_summary : String) :
    List Insight → Nat → List Visualization × List String
  | [], _ => ([], [])
  | insight :: rest, chart_idx =>
      let attempt : Except PyExc Visualization := do
        let content ← env.llm [("user", vizPrompt insight data_summary)]
        buildVizFromJson env chart_idx insight content
      match attempt with
      | .ok viz =>
          let (vs, errs) := vizInsightLoop env data_summary rest (chart_idx + 1)
          (viz :: vs, errs)
      | .error e =>
          let (vs, errs) := vizInsightLoop env data_summary rest chart_idx
          (vs, ("Failed to generate visualization " ++ toString chart_idx
            ++ ": " ++ pyStrExc e) :: errs)

/-- The no-insight branch: deterministic bar charts from every groupby
entry already in result_data. -/
def vizFromGroupbys : List (String × SourceAnalysis) → Nat → List Visualization
  | [], _ => []
  | (ds_name, a) :: rest, chart_idx =>
      match a.groupby with
      | some gb =>
          { chart_id := "chart_" ++ toString chart_idx, chart_type := "bar",
            title := gb.metric ++ " by " ++ gb.dimension ++ " (" ++ ds_name ++ ")",
            data_fields := [("x", .str gb.dimension), ("y", .str gb.metric),
                            ("dataset", .str ds_name)],
            description := "Auto-generated bar chart from groupby on " ++ ds_name,
            appropriateness_score := 4 / 5 }
            :: vizFromGroupbys rest (chart_idx + 1)
      | none => vizFromGroupbys rest chart_idx

/-- agents/visualization_agent.py visualization_agent_node. -/
def visualization_agent_node (env : PyEnv) (s : AnalyticsState) :
    Except PyExc AnalyticsState :=
  let missing :=
    match s.execution_results with
    | none => true
    | some r =>
        match r.result_data with
        | none => true
        | some rd => !rd.isTruthy
  if missing then
    let s1 := { s with error_state := some "No data available for visualization" }
    .ok (log_state_transition s1 "failed" "No data available for visualization")
  else
    match s.execution_results with
    | none =>
        let s1 := { s with error_state := some "No data available for visualization" }
        .ok (log_state_transition s1 "failed" "No data available for visualization")
    | some exec_results =>
      let rd := exec_results.result_data.getD {}
      let data_summary := vizDataSummary rd
      let (visualizations, newErrors) :=
        if !s.insights.isEmpty then
          vizInsightLoop env data_summary (s.insights.take 3) 0
        else
          (vizFromGroupbys rd.per_source 0, [])
      let s1 := { s with
        visualizations := visualizations,
        execution_errors := s.execution_errors ++ newErrors }
      .ok (log_state_transition s1 "completed"
        ("Generated " ++ toString visualizations.length ++ " visualizations"))

/-! ## agents/confidence_guardrails.py -/

/-- The guardrails prompt. -/
def guardrailsPrompt (results : ExecutionResults) (insights : List Insight) :
    String :=
  let insights_dump :=
    if !insights.isEmpty then insightsJson (insights.take 2) else "[]"
  SYSTEM_PROMPT_GUARDRAILS
  ++ "\n\nANALYSIS RESULTS:\n"
  ++ "Row Count: " ++ toString results.row_count ++ "\n"
  ++ "Query Count: " ++ toString results.queries_executed.length ++ "\n"
  ++ "Execution Time: " ++ toString results.execution_time_total_ms ++ "ms\n"
  ++ "Insights Found: " ++ toString insights.length ++ "\n\n"
  ++ "SAMPLE INSIGHTS:\n" ++ insights_dump ++ "\n\n"
  ++ "Assess confidence and identify any concerns.\n"
  ++ "Return JSON: \x7b\"overall_confidence\": 0.85, \"caveats\": [...], \"data_quality_issues\": [...], \"recommendations\": [...]\x7d"

/-- ConfidenceMetrics(...) built inside the guardrails try from the
extracted JSON. -/
def buildConfidenceFromJson (confidence_data : JValue) (row_count : Nat)
    (caveats data_quality_issues : List String) :
    Except PyExc ConfidenceMetrics := do
  let overall ← jGet confidence_data "overall_confidence" (.num (3 / 4))
    >>= pyFloat >>= validProb
  let extraCaveats ← jGet confidence_data "caveats" (.arr []) >>= jStrList
  let extraIssues ← jGet confidence_data "data_quality_issues" (.arr [])
    >>= jStrList
  let recommendations ← jGet confidence_data "recommendations" (.arr [])
    >>= jStrList
  .ok { overall_confidence := overall, data_freshness := "recent",
        sample_size_adequate := row_count ≥ MIN_DATA_POINTS,
        completeness_score := 9 / 10,
        caveats := caveats ++ extraCaveats,
        data_quality_issues := data_quality_issues ++ extraIssues,
        recommendations := recommendations }

/-- agents/confidence_guardrails.py confidence_guardrails_node.  When
the record carries no execution results the stage returns a failed
status without writing a confidence object; otherwise it always writes
one, falling back to fixed conservative values on any capability
failure. -/
def confidence_guardrails_node (env : PyEnv) (s : AnalyticsState) :
    Except PyExc AnalyticsState :=
  match s.execution_results with
  | none =>
      let s1 := { s with error_state := some "No execution results to assess" }
      .ok (log_state_transition s1 "failed" "No execution results to assess")
  | some results =>
    let insights := s.insights
    let row_count := results.row_count
    let caveats0 : List String :=
      if row_count < MIN_DATA_POINTS then
        ["Limited sample size (" ++ toString row_count
          ++ " rows). Results may be noisy."]
      else []
    let data_quality_issues : List String :=
      if row_count < MIN_DATA_POINTS then ["insufficient_sample_size"] else []
    let caveats := caveats0 ++ ["Analysis based on data from last 24 hours"]
    let tryResult : Except PyExc ConfidenceMetrics := do
      let content ← env.llm [("user", guardrailsPrompt results insights)]
      let confidence_data := extract_json env content
      buildConfidenceFromJson confidence_data row_count caveats
        data_quality_issues
    match tryResult with
    | .ok confidence_metrics =>
        let pct := formatPct0 confidence_metrics.overall_confidence
        let s1 := { s with confidence_assessment := some confidence_metrics }
        .ok (log_state_transition s1 "completed"
          ("Confidence assessment complete: " ++ pct ++ " confidence"))
    | .error e =>
        let fallback : ConfidenceMetrics :=
          { overall_confidence := 1 / 2, data_freshness := "recent",
            sample_size_adequate := row_count ≥ MIN_DATA_POINTS,
            completeness_score := 7 / 10,
            caveats := caveats ++ ["LLM assessment unavailable: " ++ pyStrExc e],
            data_quality_issues := data_quality_issues,
            recommendations := ["Re-run analysis for a more detailed confidence assessment"] }
        let s1 := { s with confidence_assessment := some fallback }
        .ok (log_state_transition s1 "completed"
          ("Confidence assessment completed with fallback (LLM error: "
            ++ pyStrExc e ++ ")"))

/-! ## graph.py: routing and the stage graph -/

/-- graph.py route_after_interpreter. -/
def route_after_interpreter (s : AnalyticsState) : String :=
  match s.interpreted_intent with
  | some intent => if intent.is_generic then "capabilities_helper" else "data_advisor"
  | none => "data_advisor"

/-- graph.py route_after_execution. -/
def route_after_execution (s : AnalyticsState) : String :=
  match s.execution_results with
  | none => "guardrails"
  | some exec_results => if !exec_results.success then "guardrails" else "insights"

/-- Run the node registered under a graph node name. -/
def applyNode (env : PyEnv) (node : String) (s : AnalyticsState) :
    Except PyExc AnalyticsState :=
  if node = "interpreter" then question_interpreter_node env s
  else if node = "capabilities_helper" then capabilities_helper_node env s
  else if node = "data_advisor" then data_advisor_node env s
  else if node = "planner" then analysis_planner_node env s
  else if node = "execution_agent" then execution_agent_node env s
  else if node = "execute_queries" then execute_queries_node env s
  else if node = "answer_synthesizer" then answer_synthesizer_node env s
  else if node = "insights" then insight_generator_node env s
  else if node = "visualizations" then visualization_agent_node env s
  else if node = "guardrails" then confidence_guardrails_node env s
  else .error (.attrError ("unknown graph node " ++ node))

/-- The edge relation of create_graph: the successor of each node given
the state produced by that node (none is END). -/
def nextAfter (node : String) (s : AnalyticsState) : Option String :=
  if node = "interpreter" then some (route_after_interpreter s)
  else if node = "capabilities_helper" then none
  else if node = "data_advisor" then some "planner"
  else if node = "planner" then some "execution_agent"
  else if node = "execution_agent" then some "execute_queries"
  else if node = "execute_queries" then some "answer_synthesizer"
  else if node = "answer_synthesizer" then some (route_after_execution s)
  else if node = "insights" then some "visualizations"
  else if node = "visualizations" then some "guardrails"
  else if node = "guardrails" then none
  else none

/-- Drive the record through the graph from a given node, collecting
the names of the executed nodes; the fuel models the LangGraph
recursion limit (default 25). -/
def runFrom (env : PyEnv) : Nat → AnalyticsState → String →
    Except PyExc (AnalyticsState × List String)
  | 0, _, _ => .error (.recursionError "Recursion limit of 25 reached")
  | fuel + 1, s, node =>
      match applyNode env node s with
      | .error e => .error e
      | .ok s1 =>
          match nextAfter node s1 with
          | none => .ok (s1, [node])
          | some nextN =>
              match runFrom env fuel s1 nextN with
              | .error e => .error e
              | .ok (sf, trace) => .ok (sf, node :: trace)

/-- graph.invoke from the entry edge START -> interpreter. -/
def runGraph (env : PyEnv) (s : AnalyticsState) :
    Except PyExc (AnalyticsState × List String) :=
  runFrom env 25 s "interpreter"

/-! ## main.py and ui_streamlit.py: the entry-point signature -/

/-- The parameter names of main.py run_analysis(question, user_id,
stream). -/
def run_analysis_params : List String := ["question", "user_id", "stream"]

/-- The keyword arguments the Streamlit UI passes in its call
run_analysis(question.strip(), user_id=..., selected_datasets=...). -/
def ui_run_analysis_kwargs : List String := ["user_id", "selected_datasets"]

/-- Python call binding at the signature level: every keyword argument
must name a declared parameter, otherwise the call raises TypeError. -/
def pythonKwargsAccepted (params kwargs : List String) : Bool :=
  kwargs.all (fun k => params.contains k)

/-! ## Spec-modelled definitions (for refinement comparisons only) -/

/-- Modelled from the spec: the searchable text of auto-detection,
"built from column names, free-text description, and any recorded
sample values" (spec section 4.3 item 2).  The live code builds it from
the column names only; this definition follows the spec words to be
compared against the code. -/
def specSearchableText (ds : DatasetEntry) : String :=
  joinSep " " (ds.schema.columns.map pyToLower)
  ++ " " ++ pyToLower (ds.schema.description.getD "")
  ++ " " ++ joinSep " " (ds.schema.sample_values.map pyToLower)

/-- Modelled from the spec: a dataset is relevant iff some lower-cased
metric or entity term of the intent is a substring of the searchable
text. -/
def specRelevant (intent : Intent) (ds : DatasetEntry) : Bool :=
  let text := specSearchableText ds
  (intent.metrics.map pyToLower).any (fun m => strContains text m)
    || (intent.entities.map pyToLower).any (fun e => strContains text e)

/-! ## Verification-side definitions -/

/-- post extends pre by appended entries only. -/
def logExtends (pre post : List String) : Prop := ∃ t, post = pre ++ t

/-- The log visible after a stage call: the new record on success, the
unchanged input record when the stage raised. -/
def resultLog (r : Except PyExc AnalyticsState) (s : AnalyticsState) : List String :=
  match r with
  | .ok s2 => s2.execution_log
  | .error _ => s.execution_log

/-- A stage only ever appends to the execution log. -/
def nodeAppendsOnly (f : PyEnv → AnalyticsState → Except PyExc AnalyticsState) : Prop :=
  ∀ env s, logExtends s.execution_log (resultLog (f env s) s)

/-- The downstream fields a non-writing stage must leave unchanged. -/
def keepsDownstream (s s' : AnalyticsState) : Prop :=
  s'.insights = s.insights ∧ s'.anomalies = s.anomalies ∧
  s'.visualizations = s.visualizations ∧
  s'.execution_results = s.execution_results

/-- The generic classification computed from the question text. -/
def genericOf (question : String) : Bool :=
  generic_phrases.any (fun p => strContains (pyToLower question) p)

/-! ## Concrete environments and records for the claim instances -/

/-- An environment whose generation capability always raises and whose
catalog is empty. -/
def envNo : PyEnv :=
  { llm := fun _ => .error (.llmError "capability down"),
    jloads := fun _ => .error (.jsonDecodeError "Expecting value: line 1 column 1 (char 0)"),
    catalog := [], fs := fun _ => none,
    now := "2024-01-01T00:00:00", elapsedMs := 0 }

/-- An environment whose capability answers but with unparseable text. -/
def envBadJson : PyEnv :=
  { envNo with llm := fun _ => .ok "this is not JSON" }

/-- An environment whose capability returns an empty JSON object. -/
def envOkEmpty : PyEnv :=
  { llm := fun _ => .ok "\x7b\x7d", jloads := fun _ => .ok (.obj []),
    catalog := [], fs := fun _ => none,
    now := "2024-01-01T00:00:00", elapsedMs := 0 }

/-- The C2 table: columns [region, revenue], rows (east,10), (west,20). -/
def dfC2 : DataFrame :=
  { cols := ["region", "revenue"],
    rows := [[Cell.str "east", Cell.num 10], [Cell.str "west", Cell.num 20]] }

/-- The C2 file-backed source registered under the logical name
"source". -/
def srcC2 : DataSource :=
  { name := "source", table_name := "data/datasets/source.csv",
    columns := ["region", "revenue"], primary_keys := [],
    quality_score := 9 / 10, last_updated := "2024-01-01T00:00:00",
    record_count := some 2 }

/-- The C2 environment: the one CSV on disk, no capability needed. -/
def envC2 : PyEnv :=
  { envNo with
    fs := fun p => if p = "data/datasets/source.csv" then some dfC2 else none }

/-- The single pending C2 query. -/
def qC2 : QueryExecutionRecord :=
  { step_number := 1, description := "agg",
    sql := "SELECT region, SUM(revenue) FROM source GROUP BY region" }

/-- The record entering the execution stage in the C2 scenario. -/
def sC2 : AnalyticsState :=
  { create_initial_state "revenue by region" "user-1" with
    available_data_sources := some { sources := [srcC2], total_sources := 1,
                                     coverage_score := 9 / 10, warnings := [] },
    pending_queries := [qC2] }

/-- The query-result entry the engine produces in the C2 scenario. -/
def entryC2 : QueryResultEntry :=
  { sql := "SELECT region, SUM(revenue) FROM source GROUP BY region",
    data := [[Cell.str "east", Cell.num 10], [Cell.str "west", Cell.num 20]],
    row_count := 2, columns := ["region", "sum(revenue)"] }

/-- Projection of a stage result onto the fields the C2 claim speaks
about: the query_results dict, the aggregate row count, and the success
flag of the ExecutionResults the stage wrote. -/
def execOutcome (r : Except PyExc AnalyticsState) :
    Option (Option (List (String × QueryResultEntry)) × Nat × Bool) :=
  match r with
  | .ok s' => s'.execution_results.map (fun er =>
      (er.result_data.bind (fun rd => rd.query_results), er.row_count,
        er.success))
  | .error _ => none

/-- Execution results present in the record used as the C3 witness. -/
def rC3w : ExecutionResults := { queries_executed := [], row_count := 4 }

/-- The record carrying execution results for the C3 witness. -/
def sC3w : AnalyticsState :=
  { create_initial_state "Why did revenue drop last quarter?" "user-1" with
    execution_results := some rC3w }

/-- Names of the selected sources in a data-advisor result. -/
def advisorNames (r : Except PyExc AnalyticsState) : Option (List String) :=
  match r with
  | .ok s' => s'.available_data_sources.map (fun d =>
      d.sources.map (fun src => src.name))
  | .error _ => none

/-- A catalog dataset whose column names mention the metric. -/
def ds1C5 : DatasetEntry :=
  { name := "ds1", location := some "data/datasets/ds1.csv",
    schema := { columns := ["region", "revenue"] } }

/-- A catalog dataset whose free-text description mentions the metric
but whose column names do not. -/
def ds2C5 : DatasetEntry :=
  { name := "ds2", location := some "data/datasets/ds2.csv",
    schema := { columns := ["a", "b"],
                description := some "Monthly revenue ledger" } }

/-- The C5 environment: both datasets in the catalog. -/
def envC5 : PyEnv := { envNo with catalog := [ds1C5, ds2C5] }

/-- The C5 intent: one metric term, "revenue". -/
def intentC5 : Intent := { task_type := "custom", metrics := ["revenue"] }

/-- The record entering data-source selection in the C5 scenario. -/
def sC5 : AnalyticsState :=
  { create_initial_state "revenue by region" "user-1" with
    interpreted_intent := some intentC5 }

/-- The C7 intent. -/
def intentC7 : Intent := { task_type := "custom" }

/-- The C7 selected sources. -/
def dsrcC7 : DataSources := { sources := [srcC2], total_sources := 1 }

/-- The record entering planning in the C7 scenario. -/
def sC7 : AnalyticsState :=
  { create_initial_state "revenue by region" "user-1" with
    interpreted_intent := some intentC7,
    available_data_sources := some dsrcC7 }

/-- The C10 catalog dataset, whose backing file is missing so that the
execution stage records a per-source analysis error. -/
def entryC10 : DatasetEntry :=
  { name := "sales", filename := some "sales.csv",
    location := some "data/datasets/sales.csv",
    schema := { columns := ["region", "revenue"], rows := some 2,
                quality_score := some (9 / 10) } }

/-- The C10 environment: capability answers with an empty object, the
dataset file is absent. -/
def envC10 : PyEnv := { envOkEmpty with catalog := [entryC10] }

/-- Projection to the node trace of a completed graph run. -/
def runTrace (r : Except PyExc (AnalyticsState × List String)) :
    Option (List String) :=
  match r with
  | .ok (_, tr) => some tr
  | .error _ => none

/-! ## Helper lemmas and claim theorems -/

theorem logExtends_self (l : List String) : logExtends l l := ⟨[], by simp⟩

theorem nodeAppendsOnly_of
    (f : PyEnv → AnalyticsState → Except PyExc AnalyticsState)
    (H : ∀ env s s', f env s = .ok s' →
      ∃ t, s'.execution_log = s.execution_log ++ t) :
    nodeAppendsOnly f := by
  intro env s
  cases h : f env s with
  | error e => exact logExtends_self _
  | ok s' =>
      rcases H env s s' h with ⟨t, ht⟩
      exact ⟨t, by simpa [resultLog] using ht⟩

theorem exists_suffix_self (l : List String) : ∃ t, l = l ++ t :=
  ⟨[], by simp⟩

theorem exists_suffix_append (l a : List String) : ∃ t, l ++ a = l ++ t :=
  ⟨a, rfl⟩

theorem exists_suffix_append2 (l a b : List String) :
    ∃ t, (l ++ a) ++ b = l ++ t :=
  ⟨a ++ b, List.append_assoc l a b⟩

theorem exists_suffix_append3 (l a b c : List String) :
    ∃ t, ((l ++ a) ++ b) ++ c = l ++ t := by
  exact ⟨a ++ b ++ c, by simp [List.append_assoc]⟩

theorem exists_suffix_append4 (l a b c d : List String) :
    ∃ t, (((l ++ a) ++ b) ++ c) ++ d = l ++ t := by
  exact ⟨a ++ b ++ c ++ d, by simp [List.append_assoc]⟩

theorem interp_log (env : PyEnv) (s s' : AnalyticsState)
    (h : question_interpreter_node env s = .ok s') :
    ∃ t, s'.execution_log = s.execution_log ++ t := by
  unfold question_interpreter_node at h
  dsimp only at h
  iterate 12 (all_goals (try split at h))
  all_goals cases h
  all_goals first
    | exact exists_suffix_append2 _ _ _
    | exact exists_suffix_append _ _
    | exact exists_suffix_append3 _ _ _ _
    | exact exists_suffix_append4 _ _ _ _ _
    | exact exists_suffix_self _

theorem capabilities_log (env : PyEnv) (s s' : AnalyticsState)
    (h : capabilities_helper_node env s = .ok s') :
    ∃ t, s'.execution_log = s.execution_log ++ t := by
  unfold capabilities_helper_node at h
  dsimp only at h
  iterate 12 (all_goals (try split at h))
  · cases h; exact exists_suffix_self _
  · cases h; exact exists_suffix_self _
  · cases h
    exact exists_suffix_append2 _ _ _
  · cases h
    exact exists_suffix_append2 _ _ _

theorem data_advisor_log (env : PyEnv) (s s' : AnalyticsState)
    (h : data_advisor_node env s = .ok s') :
    ∃ t, s'.execution_log = s.execution_log ++ t := by
  unfold data_advisor_node at h
  dsimp only at h
  iterate 12 (all_goals (try split at h))
  all_goals cases h
  all_goals first
    | exact exists_suffix_append2 _ _ _
    | exact exists_suffix_append _ _
    | exact exists_suffix_append3 _ _ _ _
    | exact exists_suffix_append4 _ _ _ _ _
    | exact exists_suffix_self _

theorem planner_log (env : PyEnv) (s s' : AnalyticsState)
    (h : analysis_planner_node env s = .ok s') :
    ∃ t, s'.execution_log = s.execution_log ++ t := by
  unfold analysis_planner_node at h
  dsimp only at h
  iterate 12 (all_goals (try split at h))
  all_goals cases h
  all_goals first
    | exact exists_suffix_append2 _ _ _
    | exact exists_suffix_append _ _
    | exact exists_suffix_append3 _ _ _ _
    | exact exists_suffix_append4 _ _ _ _ _
    | exact exists_suffix_self _

theorem execution_agent_log (env : PyEnv) (s s' : AnalyticsState)
    (h : execution_agent_node env s = .ok s') :
    ∃ t, s'.execution_log = s.execution_log ++ t := by
  unfold execution_agent_node at h
  dsimp only at h
  iterate 12 (all_goals (try split at h))
  all_goals cases h
  all_goals first
    | exact exists_suffix_append2 _ _ _
    | exact exists_suffix_append _ _
    | exact exists_suffix_append3 _ _ _ _
    | exact exists_suffix_append4 _ _ _ _ _
    | exact exists_suffix_self _

theorem execute_queries_log (env : PyEnv) (s s' : AnalyticsState)
    (h : execute_queries_node env s = .ok s') :
    ∃ t, s'.execution_log = s.execution_log ++ t := by
  unfold execute_queries_node at h
  dsimp only at h
  iterate 12 (all_goals (try split at h))
  all_goals cases h
  all_goals first
    | exact exists_suffix_append2 _ _ _
    | exact exists_suffix_append _ _
    | exact exists_suffix_append3 _ _ _ _
    | exact exists_suffix_append4 _ _ _ _ _
    | exact exists_suffix_self _

theorem answer_synthesizer_log (env : PyEnv) (s s' : AnalyticsState)
    (h : answer_synthesizer_node env s = .ok s') :
    ∃ t, s'.execution_log = s.execution_log ++ t := by
  unfold answer_synthesizer_node at h
  dsimp only at h
  iterate 12 (all_goals (try split at h))
  all_goals cases h
  all_goals first
    | exact exists_suffix_append2 _ _ _
    | exact exists_suffix_append _ _
    | exact exists_suffix_append3 _ _ _ _
    | exact exists_suffix_append4 _ _ _ _ _
    | exact exists_suffix_self _

theorem insight_generator_log (env : PyEnv) (s s' : AnalyticsState)
    (h : insight_generator_node env s = .ok s') :
    ∃ t, s'.execution_log = s.execution_log ++ t := by
  unfold insight_generator_node at h
  dsimp only at h
  iterate 12 (all_goals (try split at h))
  all_goals cases h
  all_goals first
    | exact exists_suffix_append2 _ _ _
    | exact exists_suffix_append _ _
    | exact exists_suffix_append3 _ _ _ _
    | exact exists_suffix_append4 _ _ _ _ _
    | exact exists_suffix_self _

theorem visualization_log (env : PyEnv) (s s' : AnalyticsState)
    (h : visualization_agent_node env s = .ok s') :
    ∃ t, s'.execution_log = s.execution_log ++ t := by
  unfold visualization_agent_node at h
  dsimp only at h
  iterate 12 (all_goals (try split at h))
  all_goals cases h
  all_goals first
    | exact exists_suffix_append2 _ _ _
    | exact exists_suffix_append _ _
    | exact exists_suffix_append3 _ _ _ _
    | exact exists_suffix_append4 _ _ _ _ _
    | exact exists_suffix_self _

theorem guardrails_log (env : PyEnv) (s s' : AnalyticsState)
    (h : confidence_guardrails_node env s = .ok s') :
    ∃ t, s'.execution_log = s.execution_log ++ t := by
  unfold confidence_guardrails_node at h
  dsimp only at h
  iterate 12 (all_goals (try split at h))
  all_goals cases h
  all_goals first
    | exact exists_suffix_append2 _ _ _
    | exact exists_suffix_append _ _
    | exact exists_suffix_append3 _ _ _ _
    | exact exists_suffix_append4 _ _ _ _ _
    | exact exists_suffix_self _

theorem interp_keeps (env : PyEnv) (s s' : AnalyticsState)
    (h : question_interpreter_node env s = .ok s') :
    keepsDownstream s s' ∧ s'.analysis_plan = s.analysis_plan := by
  unfold question_interpreter_node at h
  dsimp only at h
  iterate 12 (all_goals (try split at h))
  all_goals cases h
  all_goals exact ⟨⟨rfl, rfl, rfl, rfl⟩, rfl⟩

theorem capabilities_keeps (env : PyEnv) (s s' : AnalyticsState)
    (h : capabilities_helper_node env s = .ok s') :
    keepsDownstream s s' ∧ s'.analysis_plan = s.analysis_plan := by
  unfold capabilities_helper_node at h
  dsimp only at h
  iterate 12 (all_goals (try split at h))
  all_goals cases h
  all_goals exact ⟨⟨rfl, rfl, rfl, rfl⟩, rfl⟩

theorem data_advisor_keeps (env : PyEnv) (s s' : AnalyticsState)
    (h : data_advisor_node env s = .ok s') : keepsDownstream s s' := by
  unfold data_advisor_node at h
  dsimp only at h
  iterate 12 (all_goals (try split at h))
  all_goals cases h
  all_goals exact ⟨rfl, rfl, rfl, rfl⟩

theorem planner_keeps (env : PyEnv) (s s' : AnalyticsState)
    (h : analysis_planner_node env s = .ok s') : keepsDownstream s s' := by
  unfold analysis_planner_node at h
  dsimp only at h
  iterate 12 (all_goals (try split at h))
  all_goals cases h
  all_goals exact ⟨rfl, rfl, rfl, rfl⟩

theorem execution_agent_keeps (env : PyEnv) (s s' : AnalyticsState)
    (h : execution_agent_node env s = .ok s') : keepsDownstream s s' := by
  unfold execution_agent_node at h
  dsimp only at h
  iterate 12 (all_goals (try split at h))
  all_goals cases h
  all_goals exact ⟨rfl, rfl, rfl, rfl⟩

theorem execute_queries_keeps (env : PyEnv) (s s' : AnalyticsState)
    (h : execute_queries_node env s = .ok s') :
    s'.insights = s.insights ∧ s'.anomalies = s.anomalies ∧
      s'.visualizations = s.visualizations := by
  unfold execute_queries_node at h
  dsimp only at h
  iterate 12 (all_goals (try split at h))
  all_goals cases h
  all_goals exact ⟨rfl, rfl, rfl⟩

theorem answer_synthesizer_keeps (env : PyEnv) (s s' : AnalyticsState)
    (h : answer_synthesizer_node env s = .ok s') : keepsDownstream s s' := by
  unfold answer_synthesizer_node at h
  dsimp only at h
  iterate 12 (all_goals (try split at h))
  all_goals cases h
  all_goals exact ⟨rfl, rfl, rfl, rfl⟩

theorem insight_generator_keeps (env : PyEnv) (s s' : AnalyticsState)
    (h : insight_generator_node env s = .ok s') :
    s'.visualizations = s.visualizations ∧
      s'.execution_results = s.execution_results := by
  unfold insight_generator_node at h
  dsimp only at h
  iterate 12 (all_goals (try split at h))
  all_goals cases h
  all_goals exact ⟨rfl, rfl⟩

theorem visualization_keeps (env : PyEnv) (s s' : AnalyticsState)
    (h : visualization_agent_node env s = .ok s') :
    s'.insights = s.insights ∧ s'.anomalies = s.anomalies ∧
      s'.execution_results = s.execution_results := by
  unfold visualization_agent_node at h
  dsimp only at h
  iterate 12 (all_goals (try split at h))
  all_goals cases h
  all_goals exact ⟨rfl, rfl, rfl⟩

theorem guardrails_keeps (env : PyEnv) (s s' : AnalyticsState)
    (h : confidence_guardrails_node env s = .ok s') : keepsDownstream s s' := by
  unfold confidence_guardrails_node at h
  dsimp only at h
  iterate 12 (all_goals (try split at h))
  all_goals cases h
  all_goals exact ⟨rfl, rfl, rfl, rfl⟩

theorem buildIntent_generic (d : JValue) (g : Bool) (i : Intent)
    (h : buildIntentFromJson d g = .ok i) : i.is_generic = g := by
  unfold buildIntentFromJson at h
  dsimp only [bind, Except.bind] at h
  iterate 16 (all_goals (try split at h))
  all_goals cases h
  all_goals rfl

theorem interp_intent (env : PyEnv) (s s' : AnalyticsState)
    (h : question_interpreter_node env s = .ok s') :
    ∃ i, s'.interpreted_intent = some i ∧ i.is_generic = genericOf s.question := by
  unfold question_interpreter_node at h
  dsimp only at h
  iterate 12 (all_goals (try split at h))
  all_goals cases h
  case _ intent heq =>
    exact ⟨intent, rfl, buildIntent_generic _ _ _ heq⟩
  case _ => exact ⟨_, rfl, rfl⟩

/-- One unfolding step of the graph driver. -/
theorem runFrom_succ (env : PyEnv) (fuel : Nat) (s : AnalyticsState)
    (node : String) :
    runFrom env (fuel + 1) s node =
      match applyNode env node s with
      | .error e => .error e
      | .ok s1 =>
          match nextAfter node s1 with
          | none => .ok (s1, [node])
          | some nextN =>
              match runFrom env fuel s1 nextN with
              | .error e => .error e
              | .ok (sf, trace) => .ok (sf, node :: trace) := rfl

theorem applyNode_interpreter (env : PyEnv) (s : AnalyticsState) :
    applyNode env "interpreter" s = question_interpreter_node env s := rfl

theorem applyNode_capabilities (env : PyEnv) (s : AnalyticsState) :
    applyNode env "capabilities_helper" s = capabilities_helper_node env s := rfl

theorem applyNode_data_advisor (env : PyEnv) (s : AnalyticsState) :
    applyNode env "data_advisor" s = data_advisor_node env s := rfl

theorem applyNode_planner (env : PyEnv) (s : AnalyticsState) :
    applyNode env "planner" s = analysis_planner_node env s := rfl

theorem applyNode_execution_agent (env : PyEnv) (s : AnalyticsState) :
    applyNode env "execution_agent" s = execution_agent_node env s := rfl

theorem applyNode_execute_queries (env : PyEnv) (s : AnalyticsState) :
    applyNode env "execute_queries" s = execute_queries_node env s := rfl

theorem applyNode_answer_synthesizer (env : PyEnv) (s : AnalyticsState) :
    applyNode env "answer_synthesizer" s = answer_synthesizer_node env s := rfl

theorem applyNode_insights (env : PyEnv) (s : AnalyticsState) :
    applyNode env "insights" s = insight_generator_node env s := rfl

theorem applyNode_visualizations (env : PyEnv) (s : AnalyticsState) :
    applyNode env "visualizations" s = visualization_agent_node env s := rfl

theorem applyNode_guardrails (env : PyEnv) (s : AnalyticsState) :
    applyNode env "guardrails" s = confidence_guardrails_node env s := rfl

theorem nextAfter_interpreter (s : AnalyticsState) :
    nextAfter "interpreter" s = some (route_after_interpreter s) := rfl

theorem nextAfter_capabilities (s : AnalyticsState) :
    nextAfter "capabilities_helper" s = none := rfl

theorem nextAfter_data_advisor (s : AnalyticsState) :
    nextAfter "data_advisor" s = some "planner" := rfl

theorem nextAfter_planner (s : AnalyticsState) :
    nextAfter "planner" s = some "execution_agent" := rfl

theorem nextAfter_execution_agent (s : AnalyticsState) :
    nextAfter "execution_agent" s = some "execute_queries" := rfl

theorem nextAfter_execute_queries (s : AnalyticsState) :
    nextAfter "execute_queries" s = some "answer_synthesizer" := rfl

theorem nextAfter_answer_synthesizer (s : AnalyticsState) :
    nextAfter "answer_synthesizer" s = some (route_after_execution s) := rfl

theorem nextAfter_insights (s : AnalyticsState) :
    nextAfter "insights" s = some "visualizations" := rfl

theorem nextAfter_visualizations (s : AnalyticsState) :
    nextAfter "visualizations" s = some "guardrails" := rfl

theorem nextAfter_guardrails (s : AnalyticsState) :
    nextAfter "guardrails" s = none := rfl

/-- C8 (confirmed): for the question "What can you do?", any completed
run visits exactly the interpreter and the capabilities responder, and
the final record has neither a plan nor execution results; planning,
execution, insight, visualization and guardrails never run. -/
theorem C8_generic_question_routing :
    ∀ (env : PyEnv) (uid : String) (final : AnalyticsState) (tr : List String),
      runGraph env (create_initial_state "What can you do?" uid) = .ok (final, tr) →
      tr = ["interpreter", "capabilities_helper"] ∧
        final.analysis_plan = none ∧ final.execution_results = none := by
  intro env uid final tr h
  unfold runGraph at h
  rw [show (25 : Nat) = 24 + 1 from rfl, runFrom_succ, applyNode_interpreter] at h
  cases h1 : question_interpreter_node env (create_initial_state "What can you do?" uid) with
  | error e => rw [h1] at h; simp at h
  | ok s1 =>
    rw [h1] at h
    dsimp only at h
    obtain ⟨i, hi, hg⟩ := interp_intent env _ s1 h1
    have hgen : i.is_generic = true := by
      rw [hg]; exact (by decide : genericOf "What can you do?" = true)
    have hroute : route_after_interpreter s1 = "capabilities_helper" := by
      unfold route_after_interpreter
      rw [hi]
      dsimp only
      rw [hgen]
      simp
    rw [nextAfter_interpreter, hroute] at h
    dsimp only at h
    rw [show (24 : Nat) = 23 + 1 from rfl, runFrom_succ, applyNode_capabilities] at h
    cases h2 : capabilities_helper_node env s1 with
    | error e => rw [h2] at h; simp at h
    | ok s2 =>
      rw [h2] at h
      dsimp only at h
      rw [nextAfter_capabilities] at h
      dsimp only at h
      cases h
      obtain ⟨k1, hp1⟩ := interp_keeps env _ s1 h1
      obtain ⟨k2, hp2⟩ := capabilities_keeps env s1 _ h2
      refine ⟨rfl, ?_, ?_⟩
      · rw [hp2, hp1]; rfl
      · rw [k2.2.2.2, k1.2.2.2]; rfl

theorem route_interp_cases (s : AnalyticsState) :
    route_after_interpreter s = "capabilities_helper" ∨
      route_after_interpreter s = "data_advisor" := by
  unfold route_after_interpreter
  cases s.interpreted_intent with
  | none => exact Or.inr rfl
  | some intent =>
      cases hg : intent.is_generic with
      | true => left; simp [hg]
      | false => right; simp [hg]

theorem route_exec_cases (s : AnalyticsState) :
    route_after_execution s = "guardrails" ∨
      (route_after_execution s = "insights" ∧
        ∃ r, s.execution_results = some r ∧ r.success = true) := by
  unfold route_after_execution
  cases hv : s.execution_results with
  | none => exact Or.inl rfl
  | some r =>
      cases hs : r.success with
      | false => left; simp [hs]
      | true => exact Or.inr ⟨by simp [hs], r, rfl, hs⟩

/-- C10 (confirmed): in any completed run whose ExecutionResults carry
success = false (per-source analysis errors), the route after answer
synthesis goes directly to guardrails: the insight and visualization
stages never execute and insights, anomalies and visualizations stay
empty. -/
theorem C10_failed_execution_skips_insights :
    ∀ (env : PyEnv) (q uid : String) (final : AnalyticsState)
      (tr : List String) (r : ExecutionResults),
      runGraph env (create_initial_state q uid) = .ok (final, tr) →
      final.execution_results = some r →
      r.success = false →
      tr.contains "insights" = false ∧ tr.contains "visualizations" = false ∧
        final.insights = [] ∧ final.anomalies = [] ∧
        final.visualizations = [] := by
  intro env q uid final tr r h hres hfail
  unfold runGraph at h
  rw [show (25 : Nat) = 24 + 1 from rfl, runFrom_succ, applyNode_interpreter] at h
  cases h1 : question_interpreter_node env (create_initial_state q uid) with
  | error e => rw [h1] at h; simp at h
  | ok s1 =>
  rw [h1] at h
  dsimp only at h
  rw [nextAfter_interpreter] at h
  obtain ⟨k1, -⟩ := interp_keeps env _ s1 h1
  rcases route_interp_cases s1 with hr | hr
  · -- capabilities path: execution results stay empty, contradiction
    rw [hr] at h
    dsimp only at h
    rw [show (24 : Nat) = 23 + 1 from rfl, runFrom_succ, applyNode_capabilities] at h
    cases h2 : capabilities_helper_node env s1 with
    | error e => rw [h2] at h; simp at h
    | ok s2 =>
    rw [h2] at h
    dsimp only at h
    rw [nextAfter_capabilities] at h
    dsimp only at h
    cases h
    obtain ⟨k2, -⟩ := capabilities_keeps env s1 _ h2
    rw [k2.2.2.2, k1.2.2.2] at hres
    cases hres
  · -- analysis path
    rw [hr] at h
    dsimp only at h
    rw [show (24 : Nat) = 23 + 1 from rfl, runFrom_succ, applyNode_data_advisor] at h
    cases h2 : data_advisor_node env s1 with
    | error e => rw [h2] at h; simp at h
    | ok s2 =>
    rw [h2] at h
    dsimp only at h
    rw [nextAfter_data_advisor] at h
    dsimp only at h
    rw [show (23 : Nat) = 22 + 1 from rfl, runFrom_succ, applyNode_planner] at h
    cases h3 : analysis_planner_node env s2 with
    | error e => rw [h3] at h; simp at h
    | ok s3 =>
    rw [h3] at h
    dsimp only at h
    rw [nextAfter_planner] at h
    dsimp only at h
    rw [show (22 : Nat) = 21 + 1 from rfl, runFrom_succ, applyNode_execution_agent] at h
    cases h4 : execution_agent_node env s3 with
    | error e => rw [h4] at h; simp at h
    | ok s4 =>
    rw [h4] at h
    dsimp only at h
    rw [nextAfter_execution_agent] at h
    dsimp only at h
    rw [show (21 : Nat) = 20 + 1 from rfl, runFrom_succ, applyNode_execute_queries] at h
    cases h5 : execute_queries_node env s4 with
    | error e => rw [h5] at h; simp at h
    | ok s5 =>
    rw [h5] at h
    dsimp only at h
    rw [nextAfter_execute_queries] at h
    dsimp only at h
    rw [show (20 : Nat) = 19 + 1 from rfl, runFrom_succ, applyNode_answer_synthesizer] at h
    cases h6 : answer_synthesizer_node env s5 with
    | error e => rw [h6] at h; simp at h
    | ok s6 =>
    rw [h6] at h
    dsimp only at h
    rw [nextAfter_answer_synthesizer] at h
    have k2 := data_advisor_keeps env s1 s2 h2
    have k3p := planner_keeps env s2 s3 h3
    have k4p := execution_agent_keeps env s3 s4 h4
    have k5 := execute_queries_keeps env s4 s5 h5
    have k6 := answer_synthesizer_keeps env s5 s6 h6
    rcases route_exec_cases s6 with hr2 | ⟨hr2, r6, hv6, hs6⟩
    · -- guardrails directly: the insight and visualization stages never run
      rw [hr2] at h
      dsimp only at h
      rw [show (19 : Nat) = 18 + 1 from rfl, runFrom_succ, applyNode_guardrails] at h
      cases h7 : confidence_guardrails_node env s6 with
      | error e => rw [h7] at h; simp at h
      | ok s7 =>
      rw [h7] at h
      dsimp only at h
      rw [nextAfter_guardrails] at h
      dsimp only at h
      cases h
      have k7 := guardrails_keeps env s6 _ h7
      refine ⟨by decide, by decide, ?_, ?_, ?_⟩
      · rw [k7.1, k6.1, k5.1, k4p.1, k3p.1, k2.1, k1.1]; rfl
      · rw [k7.2.1, k6.2.1, k5.2.1, k4p.2.1, k3p.2.1, k2.2.1, k1.2.1]; rfl
      · rw [k7.2.2.1, k6.2.2.1, k5.2.2, k4p.2.2.1, k3p.2.2.1, k2.2.2.1,
          k1.2.2.1]
        rfl
    · -- insights path: execution succeeded, contradicting r.success = false
      rw [hr2] at h
      dsimp only at h
      rw [show (19 : Nat) = 18 + 1 from rfl, runFrom_succ, applyNode_insights] at h
      cases h7 : insight_generator_node env s6 with
      | error e => rw [h7] at h; simp at h
      | ok s7 =>
      rw [h7] at h
      dsimp only at h
      rw [nextAfter_insights] at h
      dsimp only at h
      rw [show (18 : Nat) = 17 + 1 from rfl, runFrom_succ, applyNode_visualizations] at h
      cases h8 : visualization_agent_node env s7 with
      | error e => rw [h8] at h; simp at h
      | ok s8 =>
      rw [h8] at h
      dsimp only at h
      rw [nextAfter_visualizations] at h
      dsimp only at h
      rw [show (17 : Nat) = 16 + 1 from rfl, runFrom_succ, applyNode_guardrails] at h
      cases h9 : confidence_guardrails_node env s8 with
      | error e => rw [h9] at h; simp at h
      | ok s9 =>
      rw [h9] at h
      dsimp only at h
      rw [nextAfter_guardrails] at h
      dsimp only at h
      cases h
      have k7 := insight_generator_keeps env s6 s7 h7
      have k8 := visualization_keeps env s7 s8 h8
      have k9 := guardrails_keeps env s8 _ h9
      rw [k9.2.2.2, k8.2.2, k7.2, hv6] at hres
      cases hres
      rw [hs6] at hfail
      cases hfail

/-- C4 (amended): a record reaching data-source selection with no intent
(and empty upstream fields) makes the stage set errorState and status
"failed", but the graph edge to the planner is unconditional: planning,
query generation, execution and answer synthesis all still execute, the
insight and visualization stages do not, and the run ends in guardrails
with status "failed".  This refutes "no later stage executes". -/
theorem C4_missing_intent_degraded_run :
    ∀ (env : PyEnv) (s : AnalyticsState),
      s.interpreted_intent = none →
      s.available_data_sources = none →
      s.analysis_plan = none →
      s.execution_results = none →
      ∃ final,
        runFrom env 25 s "data_advisor" =
          .ok (final, ["data_advisor", "planner", "execution_agent",
            "execute_queries", "answer_synthesizer", "guardrails"]) ∧
        final.status = "failed" ∧ final.error_state ≠ none ∧
        final.insights = s.insights ∧ final.anomalies = s.anomalies ∧
        final.visualizations = s.visualizations := by
  intro env s h1 h2 h3 h4
  obtain ⟨s1, e1, f1i, f1d, f1p, f1e, f1ins, f1an, f1viz⟩ :
      ∃ s1, data_advisor_node env s = .ok s1 ∧
        s1.interpreted_intent = none ∧ s1.available_data_sources = none ∧
        s1.analysis_plan = none ∧ s1.execution_results = none ∧
        s1.insights = s.insights ∧ s1.anomalies = s.anomalies ∧
        s1.visualizations = s.visualizations := by
    unfold data_advisor_node
    rw [h1]
    exact ⟨_, rfl, rfl, h2, h3, h4, rfl, rfl, rfl⟩
  obtain ⟨s2, e2, f2d, f2p, f2e, f2ins, f2an, f2viz⟩ :
      ∃ s2, analysis_planner_node env s1 = .ok s2 ∧
        s2.available_data_sources = none ∧ s2.analysis_plan = none ∧
        s2.execution_results = none ∧ s2.insights = s1.insights ∧
        s2.anomalies = s1.anomalies ∧ s2.visualizations = s1.visualizations := by
    unfold analysis_planner_node
    rw [f1i]
    exact ⟨_, rfl, f1d, f1p, f1e, rfl, rfl, rfl⟩
  obtain ⟨s3, e3, f3d, f3e, f3ins, f3an, f3viz⟩ :
      ∃ s3, execution_agent_node env s2 = .ok s3 ∧
        s3.available_data_sources = none ∧ s3.execution_results = none ∧
        s3.insights = s2.insights ∧ s3.anomalies = s2.anomalies ∧
        s3.visualizations = s2.visualizations := by
    unfold execution_agent_node
    rw [f2p]
    exact ⟨_, rfl, f2d, f2e, rfl, rfl, rfl⟩
  obtain ⟨s4, e4, f4e, f4ins, f4an, f4viz⟩ :
      ∃ s4, execute_queries_node env s3 = .ok s4 ∧
        s4.execution_results = none ∧ s4.insights = s3.insights ∧
        s4.anomalies = s3.anomalies ∧ s4.visualizations = s3.visualizations := by
    unfold execute_queries_node
    dsimp only
    rw [f3d]
    exact ⟨_, rfl, f3e, rfl, rfl, rfl⟩
  obtain ⟨s5, e5, f5e, f5ins, f5an, f5viz⟩ :
      ∃ s5, answer_synthesizer_node env s4 = .ok s5 ∧
        s5.execution_results = none ∧ s5.insights = s4.insights ∧
        s5.anomalies = s4.anomalies ∧ s5.visualizations = s4.visualizations := by
    unfold answer_synthesizer_node
    dsimp only
    rw [f4e]
    exact ⟨_, rfl, rfl, rfl, rfl, rfl⟩
  have r5 : route_after_execution s5 = "guardrails" := by
    unfold route_after_execution
    rw [f5e]
  obtain ⟨s6, e6, f6st, f6err, f6ins, f6an, f6viz⟩ :
      ∃ s6, confidence_guardrails_node env s5 = .ok s6 ∧
        s6.status = "failed" ∧ s6.error_state = some "No execution results to assess" ∧
        s6.insights = s5.insights ∧ s6.anomalies = s5.anomalies ∧
        s6.visualizations = s5.visualizations := by
    unfold confidence_guardrails_node
    rw [f5e]
    exact ⟨_, rfl, rfl, rfl, rfl, rfl, rfl⟩
  refine ⟨s6, ?_, f6st, by rw [f6err]; simp, ?_, ?_, ?_⟩
  · rw [show (25 : Nat) = 24 + 1 from rfl, runFrom_succ, applyNode_data_advisor, e1]
    dsimp only
    rw [nextAfter_data_advisor]
    dsimp only
    rw [show (24 : Nat) = 23 + 1 from rfl, runFrom_succ, applyNode_planner, e2]
    dsimp only
    rw [nextAfter_planner]
    dsimp only
    rw [show (23 : Nat) = 22 + 1 from rfl, runFrom_succ, applyNode_execution_agent, e3]
    dsimp only
    rw [nextAfter_execution_agent]
    dsimp only
    rw [show (22 : Nat) = 21 + 1 from rfl, runFrom_succ, applyNode_execute_queries, e4]
    dsimp only
    rw [nextAfter_execute_queries]
    dsimp only
    rw [show (21 : Nat) = 20 + 1 from rfl, runFrom_succ, applyNode_answer_synthesizer, e5]
    dsimp only
    rw [nextAfter_answer_synthesizer, r5]
    dsimp only
    rw [show (20 : Nat) = 19 + 1 from rfl, runFrom_succ, applyNode_guardrails, e6]
    dsimp only
    rw [nextAfter_guardrails]
  · rw [f6ins, f5ins, f4ins, f3ins, f2ins, f1ins]
  · rw [f6an, f5an, f4an, f3an, f2an, f1an]
  · rw [f6viz, f5viz, f4viz, f3viz, f2viz, f1viz]

theorem materializeSource_name (env : PyEnv) (k : String) (meta : SourceMeta)
    (src : DataSource) (h : materializeSource env k meta = .ok src) :
    src.name = k := by
  unfold materializeSource mkDataSource validProb at h
  dsimp only [bind, Except.bind] at h
  iterate 6 (all_goals (try split at h))
  all_goals cases h
  all_goals rfl

theorem mapM_materialize_names (env : PyEnv) (all : List (String × SourceMeta)) :
    ∀ (keys : List String) (sources : List DataSource),
      (keys.mapM (fun source_key =>
        match all.lookup source_key with
        | some meta => materializeSource env source_key meta
        | none => .error (.attrError "KeyError"))) = .ok sources →
      sources.map (fun src => src.name) = keys := by
  intro keys
  induction keys with
  | nil =>
      intro sources h
      simp only [List.mapM_nil, pure, Except.pure] at h
      cases h
      rfl
  | cons k ks ih =>
      intro sources h
      rw [List.mapM_cons] at h
      simp only [bind, Except.bind, pure, Except.pure] at h
      split at h
      · simp at h
      case _ src heq =>
        cases hrest : ks.mapM (fun source_key =>
            match all.lookup source_key with
            | some meta => materializeSource env source_key meta
            | none => .error (.attrError "KeyError")) with
        | error e => rw [hrest] at h; simp at h
        | ok rest =>
            rw [hrest] at h
            dsimp only at h
            cases h
            have hname : src.name = k := by
              split at heq
              · exact materializeSource_name env _ _ _ heq
              · cases heq
            simp [hname, ih rest hrest]

/-- C5 (amended): in auto-detection the searchable text is the
space-joined lower-cased column names only; a dataset matches iff some
lower-cased metric or entity term is a substring of that text; the
selected names are exactly the matching ones, or every catalog dataset
(with a warning) when nothing matches or the intent is generic. -/
theorem C5_column_matching_amended :
    ∀ (env : PyEnv) (s : AnalyticsState) (intent : Intent)
      (s' : AnalyticsState) (d : DataSources),
      s.interpreted_intent = some intent →
      data_advisor_node env s = .ok s' →
      s'.available_data_sources = some d →
      (let all := get_all_available_sources env
       let matchedNames := (all.filter (fun p =>
         ((intent.metrics.map pyToLower).any (fun m =>
           strContains (joinSep " " (p.2.columns.map pyToLower)) m)
         || (intent.entities.map pyToLower).any (fun e =>
           strContains (joinSep " " (p.2.columns.map pyToLower)) e)))).map
           (fun p => p.1)
       (d.sources.map (fun src => src.name) =
         if matchedNames.isEmpty || intent.is_generic then
           all.map (fun p => p.1)
         else matchedNames) ∧
       ((matchedNames.isEmpty || intent.is_generic) = true →
         "No specific datasets matched intent clearly - using all available datasets"
           ∈ d.warnings)) := by
  intro env s intent s' d hi hnode hd
  unfold data_advisor_node at hnode
  rw [hi] at hnode
  dsimp only at hnode
  split at hnode
  case _ e heq => cases hnode
  case _ sources heq =>
    cases hnode
    cases hd
    refine ⟨?_, ?_⟩
    · exact mapM_materialize_names env (get_all_available_sources env) _ sources heq
    · intro hfall
      have hfall2 : ((((get_all_available_sources env).filter
          (fun p => advisorMatches intent p.2)).map (fun p => p.1)).isEmpty
            || intent.is_generic) = true := hfall
      simp only [hfall2, if_true]
      split
      · exact List.mem_append_left _ (List.mem_singleton.mpr rfl)
      · exact List.mem_singleton.mpr rfl

/-- C3 (amended): for every record that carries execution results the
guardrails stage always returns normally with a ConfidenceMetrics
written, and when the generation capability raises it emits the
conservative fallback with overallConfidence = 0.5. -/
theorem C3_confidence_always_written_amended :
    ∀ (env : PyEnv) (s : AnalyticsState) (r : ExecutionResults),
      s.execution_results = some r →
      ∃ s', confidence_guardrails_node env s = .ok s' ∧
        s'.confidence_assessment.isSome = true ∧
        (∀ e, env.llm [("user", guardrailsPrompt r s.insights)] = .error e →
          ∃ cm, s'.confidence_assessment = some cm ∧
            cm.overall_confidence = 1 / 2) := by
  intro env s r hres
  unfold confidence_guardrails_node
  rw [hres]
  dsimp only
  split
  case _ cm heq =>
    refine ⟨_, rfl, rfl, ?_⟩
    intro e he
    rw [he] at heq
    simp [bind, Except.bind] at heq
  case _ err heq =>
    refine ⟨_, rfl, rfl, ?_⟩
    intro e he
    exact ⟨_, rfl, rfl⟩

/-- C7 (confirmed): when the generation capability always raises, the
planning stage yields exactly one fallback step, described "Basic
aggregation over primary metric", spanning every selected source, with
estimatedRuntimeSeconds = 10 and a warning citing the parse error, and
the stage ends with status "planning" rather than halting. -/
theorem C7_planner_fallback :
    ∀ (env : PyEnv) (s : AnalyticsState) (intent : Intent)
      (dsrc : DataSources) (err : PyExc),
      s.interpreted_intent = some intent →
      s.available_data_sources = some dsrc →
      (∀ msgs, env.llm msgs = .error err) →
      ∃ s' plan step,
        analysis_planner_node env s = .ok s' ∧
        s'.analysis_plan = some plan ∧
        plan.steps = [step] ∧
        plan.total_steps = 1 ∧
        step.description = "Basic aggregation over primary metric" ∧
        step.required_tables = dsrc.sources.map (fun src => src.name) ∧
        plan.estimated_runtime_seconds = 10 ∧
        plan.warnings = ["Planner JSON parse error, using fallback plan: "
          ++ pyStrExc err] ∧
        s'.status = "planning" ∧ s'.error_state ≠ none := by
  intro env s intent dsrc err hi hd hllm
  unfold analysis_planner_node
  rw [hi, hd]
  dsimp only
  rw [hllm]
  dsimp only [bind, Except.bind]
  exact ⟨_, _, _, rfl, rfl, rfl, rfl, rfl, rfl, rfl, rfl, rfl, by simp [log_state_transition]⟩

/-- C1 (code_bug): the claim says a parse failure of any kind (capability
exception or malformed JSON) yields a default Intent with the failure in
errorState and the pipeline continuing.  In the code, the except handler
reads generic_phrases, which is bound inside the try block only after
llm.invoke and json.loads; on both failure kinds the handler itself
raises UnboundLocalError and the exception escapes the stage.  Evaluated
here at the two failing inputs. -/
theorem C1_interpreter_parse_failure_escapes :
    question_interpreter_node envNo
        (create_initial_state "Why did revenue drop last quarter?" "user-1") =
      .error (.unboundLocalError "generic_phrases") ∧
    question_interpreter_node envBadJson
        (create_initial_state "Why did revenue drop last quarter?" "user-1") =
      .error (.unboundLocalError "generic_phrases") :=
  ⟨rfl, rfl⟩

/-- C2 (counterexample): with exactly the claimed setup — one file-backed
source [region, revenue] with rows (east,10), (west,20) and the pending
query SELECT region, SUM(revenue) FROM source GROUP BY region — the
stage produces ExecutionResults.rowCount = 4, not 2: the supplementary
descriptive pass adds the 2 source rows on top of the 2 query rows. -/
theorem C2_rowcount_counterexample :
    execOutcome (execute_queries_node envC2 sC2) =
      some (some [("step_1: agg", entryC2)], 4, true) ∧ (4 : Nat) ≠ 2 :=
  ⟨rfl, by decide⟩

/-- C2 (amended): in the claimed setup, resultData["query_results"]
holds exactly one step entry with 2 rows whose revenue sums to 30 and a
per-step rowCount of 2; ExecutionResults.rowCount however equals 4 (the
2 query rows plus the 2 rows counted by the per-source summary pass). -/
theorem C2_query_engine_round_trip_amended :
    execOutcome (execute_queries_node envC2 sC2) =
      some (some [("step_1: agg", entryC2)], 4, true) ∧
    entryC2.data.length = 2 ∧
    (entryC2.data.map (fun row => (cellNum (row.getD 1 Cell.null)).getD 0)).sum
      = 30 ∧
    entryC2.row_count = 2 :=
  ⟨rfl, by decide, by decide, by decide⟩

/-- C6 (code_bug): the claim says the entry point accepts an optional
selectedDatasets list.  main.run_analysis declares only (question,
user_id, stream), while the repository's own Streamlit UI calls it with
a selected_datasets keyword, so that call raises TypeError; no
data-source filtering by explicit names exists anywhere in the stage
code. -/
theorem C6_ui_selected_datasets_rejected :
    pythonKwargsAccepted run_analysis_params ui_run_analysis_kwargs = false ∧
    ("selected_datasets" ∈ run_analysis_params ↔ False) ∧
    "selected_datasets" ∈ ui_run_analysis_kwargs := by
  refine ⟨by decide, by decide, by decide⟩

/-- C9 (confirmed): every stage function only appends to executionLog:
for every environment and input record, the log after a completed stage
call extends the log before it, so its length is monotonically
non-decreasing and existing entries are never removed or reordered. -/
theorem C9_execution_log_append_only :
    nodeAppendsOnly question_interpreter_node ∧
    nodeAppendsOnly capabilities_helper_node ∧
    nodeAppendsOnly data_advisor_node ∧
    nodeAppendsOnly analysis_planner_node ∧
    nodeAppendsOnly execution_agent_node ∧
    nodeAppendsOnly execute_queries_node ∧
    nodeAppendsOnly answer_synthesizer_node ∧
    nodeAppendsOnly insight_generator_node ∧
    nodeAppendsOnly visualization_agent_node ∧
    nodeAppendsOnly confidence_guardrails_node :=
  ⟨nodeAppendsOnly_of _ interp_log,
   nodeAppendsOnly_of _ capabilities_log,
   nodeAppendsOnly_of _ data_advisor_log,
   nodeAppendsOnly_of _ planner_log,
   nodeAppendsOnly_of _ execution_agent_log,
   nodeAppendsOnly_of _ execute_queries_log,
   nodeAppendsOnly_of _ answer_synthesizer_log,
   nodeAppendsOnly_of _ insight_generator_log,
   nodeAppendsOnly_of _ visualization_log,
   nodeAppendsOnly_of _ guardrails_log⟩

/-- C3 (counterexample): a record reaching guardrails without execution
results terminates the stage with status "failed" and no
ConfidenceMetrics written, refuting "for every input record". -/
theorem C3_missing_results_no_confidence :
    ∃ s', confidence_guardrails_node envNo
        (create_initial_state "Why did revenue drop last quarter?" "user-1") =
      .ok s' ∧ s'.confidence_assessment = none ∧ s'.status = "failed" :=
  ⟨_, rfl, rfl, rfl⟩

/-- Witness for C3: the amended theorem applied to a concrete record
with execution results and a capability that always raises. -/
theorem C3_confidence_always_written_witness :
    ∃ s', confidence_guardrails_node envNo sC3w = .ok s' ∧
      s'.confidence_assessment.isSome = true ∧
      (∀ e, envNo.llm [("user", guardrailsPrompt rC3w sC3w.insights)] = .error e →
        ∃ cm, s'.confidence_assessment = some cm ∧
          cm.overall_confidence = 1 / 2) :=
  C3_confidence_always_written_amended envNo sC3w rC3w rfl

/-- Witness for C4: the amended run at a concrete empty record and
environment. -/
theorem C4_missing_intent_degraded_run_witness :
    ∃ final,
      runFrom envNo 25
          (create_initial_state "Why did revenue drop last quarter?" "user-1")
          "data_advisor" =
        .ok (final, ["data_advisor", "planner", "execution_agent",
          "execute_queries", "answer_synthesizer", "guardrails"]) ∧
      final.status = "failed" ∧ final.error_state ≠ none ∧
      final.insights = (create_initial_state "Why did revenue drop last quarter?" "user-1").insights ∧
      final.anomalies = (create_initial_state "Why did revenue drop last quarter?" "user-1").anomalies ∧
      final.visualizations = (create_initial_state "Why did revenue drop last quarter?" "user-1").visualizations :=
  C4_missing_intent_degraded_run envNo _ rfl rfl rfl rfl

/-- C4 (counterexample): starting data-source selection on a fresh record
with no intent, the stage fails but the run still visits the planner and
every later core stage, refuting "the pipeline halts: no later stage
executes". -/
theorem C4_pipeline_continues_counterexample :
    runTrace (runFrom envNo 25
        (create_initial_state "Why did revenue drop last quarter?" "user-1")
        "data_advisor") =
      some ["data_advisor", "planner", "execution_agent", "execute_queries",
        "answer_synthesizer", "guardrails"] ∧
    "planner" ∈ ["data_advisor", "planner", "execution_agent",
      "execute_queries", "answer_synthesizer", "guardrails"] := by
  exact ⟨by decide, by decide⟩

/-- C5 (counterexample): a dataset whose description contains the metric
term but whose columns do not is relevant under the spec text (which
searches columns, description and sample values) yet is not selected by
the code, which searches the space-joined lower-cased column names
only. -/
theorem C5_description_not_searched_counterexample :
    specRelevant intentC5 ds2C5 = true ∧
    advisorNames (data_advisor_node envC5 sC5) = some ["ds1"] ∧
    ("ds2" ∈ ["ds1"] ↔ False) :=
  ⟨by decide, by decide, by decide⟩

/-- Witness for C5: the amended characterization at the concrete
two-dataset catalog. -/
theorem C5_column_matching_witness :
    ∃ s' d, data_advisor_node envC5 sC5 = .ok s' ∧
      s'.available_data_sources = some d ∧
      (let all := get_all_available_sources envC5
       let matchedNames := (all.filter (fun p =>
         ((intentC5.metrics.map pyToLower).any (fun m =>
           strContains (joinSep " " (p.2.columns.map pyToLower)) m)
         || (intentC5.entities.map pyToLower).any (fun e =>
           strContains (joinSep " " (p.2.columns.map pyToLower)) e)))).map
           (fun p => p.1)
       (d.sources.map (fun src => src.name) =
         if matchedNames.isEmpty || intentC5.is_generic then
           all.map (fun p => p.1)
         else matchedNames) ∧
       ((matchedNames.isEmpty || intentC5.is_generic) = true →
         "No specific datasets matched intent clearly - using all available datasets"
           ∈ d.warnings)) :=
  ⟨_, _, rfl, rfl, C5_column_matching_amended envC5 sC5 intentC5 _ _ rfl rfl rfl⟩

/-- Witness for C7: the fallback plan at a concrete record and an
always-raising capability. -/
theorem C7_planner_fallback_witness :
    ∃ s' plan step,
      analysis_planner_node envNo sC7 = .ok s' ∧
      s'.analysis_plan = some plan ∧
      plan.steps = [step] ∧
      plan.total_steps = 1 ∧
      step.description = "Basic aggregation over primary metric" ∧
      step.required_tables = dsrcC7.sources.map (fun src => src.name) ∧
      plan.estimated_runtime_seconds = 10 ∧
      plan.warnings = ["Planner JSON parse error, using fallback plan: "
        ++ pyStrExc (.llmError "capability down")] ∧
      s'.status = "planning" ∧ s'.error_state ≠ none :=
  C7_planner_fallback envNo sC7 intentC7 dsrcC7 (.llmError "capability down")
    rfl rfl (fun _ => rfl)

/-- Witness for C8: a completed concrete run of the generic question. -/
theorem C8_generic_question_routing_witness :
    ∃ final tr,
      runGraph envOkEmpty (create_initial_state "What can you do?" "user-1") =
        .ok (final, tr) ∧
      (tr = ["interpreter", "capabilities_helper"] ∧
        final.analysis_plan = none ∧ final.execution_results = none) :=
  ⟨_, _, rfl, C8_generic_question_routing envOkEmpty "user-1" _ _ rfl⟩

/-- Witness for C10: a concrete completed run whose only dataset file is
missing, so the execution stage records an error and success is
false. -/
theorem C10_failed_execution_skips_insights_witness :
    ∃ final tr r,
      runGraph envC10 (create_initial_state "how are sales" "user-1") =
        .ok (final, tr) ∧
      final.execution_results = some r ∧ r.success = false ∧
      (tr.contains "insights" = false ∧ tr.contains "visualizations" = false ∧
        final.insights = [] ∧ final.anomalies = [] ∧
        final.visualizations = []) :=
  ⟨_, _, _, rfl, rfl, rfl,
    C10_failed_execution_skips_insights envC10 "how are sales" "user-1" _ _ _
      rfl rfl rfl⟩
